import Mathlib

/-!
# glbd process orchestrator (`src/glb_main.c`)

A shallow embedding of the three functions of `glb_main.c`:
`allocate_resources`, `free_resources` and `main`.

The functions are sequences of calls into the operating system and into the
other glbd modules (router, pool, listener, control, logging, ...).  None of
those callees is part of this file, so every call is recorded as an `Event`
in a trace and its result is read from an `Env`, a record holding one outcome
per call site.  A run of `main` is therefore a pure function from the
outcomes of the external calls to the list of calls performed, in order,
together with the exit status.

C `int` values are `Int`, pointers are `Nat` with `0` for `NULL`, the
`uint16_t` port is reduced modulo `2 ^ 16`.  Every external call is taken to
return to its caller; `glb_daemon_start` is followed in the process that goes
on to build the components.
-/

namespace Glb

set_option linter.unusedTactic false
set_option linter.unreachableTactic false

/-! ## Data model -/

/-- Socket address (`glb_sockaddr_t`); only passed through by `glb_main.c`. -/
structure glb_sockaddr_t where
  id : Nat
deriving DecidableEq

/-- Destination entry (`glb_dst_t`); only passed through by `glb_main.c`. -/
structure glb_dst_t where
  id : Nat
deriving DecidableEq

/-- Modelled from the spec: the configuration record `glb_cnf_t`, declared in a
header that is not among the sources.  The spec (section 6) lists the startup
inputs: destination address list, worker thread count, listening address, FIFO
path, optional control-socket address, daemonize flag.  The field names are the
ones `glb_main.c` reads. -/
structure glb_cnf_t where
  fifo_name : String
  ctrl_set : Bool
  ctrl_addr : glb_sockaddr_t
  inc_addr : glb_sockaddr_t
  daemonize : Bool
  n_dst : Nat
  dst : List glb_dst_t
  n_threads : Nat
deriving DecidableEq

/-- The mode bit `S_IRUSR` of `<sys/stat.h>`. -/
def S_IRUSR : Nat := 0o400

/-- The mode bit `S_IWUSR` of `<sys/stat.h>`. -/
def S_IWUSR : Nat := 0o200

/-- The flag `O_RDWR` of `<fcntl.h>`. -/
def O_RDWR : Nat := 2

/-- The error number `EEXIST` of `<errno.h>`. -/
def EEXIST : Int := 17

/-- The buffer size `BUFSIZ` of `<stdio.h>`. -/
def BUFSIZ : Nat := 8192

/-- Modelled from the spec: the macro `EXIT_FAILURE` of `<stdlib.h>`, which the
sources do not define.  The spec calls the failure status "non-zero"; the
value is the POSIX one. -/
def EXIT_FAILURE : Int := 1

/-- Flags argument of `glb_socket_create`; `glb_main.c` only ever passes
`GLB_SOCK_DEFER_ACCEPT`, whose numeric value lives in a header that is not among the sources. -/
inductive glb_sock_flags where
  | GLB_SOCK_DEFER_ACCEPT
deriving DecidableEq

/-- The messages `glb_main.c` hands to the logger or to `stderr`, one
constructor per format string, with the formatted arguments. -/
inductive Msg where
  /-- line 35: the FIFO already exists -/
  | fifo_exists (name : String)
  /-- line 41: could not create the FIFO, with errno -/
  | fifo_create_failed (name : String) (err : Int)
  /-- line 51: failed to open the FIFO file, with the error number -/
  | fifo_open_failed (err : Int)
  /-- line 114: failed to parse arguments -/
  | parse_failed
  /-- line 121: failed to initialize logger -/
  | logger_failed
  /-- line 126: failed to allocate initial resources -/
  | alloc_failed
  /-- line 139: failed to create router -/
  | router_failed
  /-- line 145: failed to create thread pool -/
  | pool_failed
  /-- line 151: failed to create connection listener -/
  | listener_failed
  /-- line 158: failed to create control thread -/
  | ctrl_failed
  /-- line 164: started -/
  | started
  /-- line 186: exit -/
  | exit
deriving DecidableEq

/-- One call made by `glb_main.c`, with its arguments and, where the caller
looks at it, the value it returned. -/
inductive Event where
  | glb_limits_init
  | glb_cnf_init (ret : Bool)
  | glb_cmd_parse (argc : Int) (argv : List String)
  | fprintf_stderr (msg : Msg)
  | glb_cnf_print (cnf : glb_cnf_t)
  | glb_log_init (ret : Int)
  | mkfifo (path : String) (mode : Nat) (ret : Int)
  | sys_open (path : String) (flags : Nat) (ret : Int)
  | glb_socket_create (addr : glb_sockaddr_t) (flags : glb_sock_flags) (ret : Int)
  | close (fd : Int)
  | remove (path : String)
  | glb_log_error (msg : Msg)
  | glb_log_fatal (msg : Msg)
  | glb_log_info (msg : Msg)
  | glb_signal_set_handler
  | glb_daemon_start
  | glb_daemon_ok
  | glb_router_create (n_dst : Nat) (dst : List glb_dst_t) (ret : Nat)
  | glb_pool_create (n_threads : Nat) (router : Nat) (ret : Nat)
  | glb_listener_create (router pool : Nat) (sock : Int) (ret : Nat)
  | glb_socket_addr_get_port (addr : glb_sockaddr_t) (ret : Nat)
  | glb_ctrl_create (router pool : Nat) (inc_port : Nat) (fifo sock : Int) (ret : Nat)
  | glb_router_print_info (router : Nat) (size : Nat)
  | glb_pool_print_info (pool : Nat) (size : Nat)
  | puts (s : String)
  | sleep (seconds : Nat)
  | glb_ctrl_destroy (ctrl : Nat)
deriving DecidableEq

/-- Outcomes of the external calls, one field per call site of `glb_main.c`.

* `glb_cnf_init`: whether `glb_cnf_init()` returned non-null (line 110);
* `glb_cmd_parse`: the global `glb_cnf` as `main` finds it after
  `glb_cmd_parse` (line 113), `none` for `NULL`;
* `glb_log_init`: return value of `glb_log_init` (line 120);
* `mkfifo`, `errno`: return value of `mkfifo` and the `errno` it leaves (line 31);
* `sys_open`: return value of `open` (line 48);
* `ctrl_socket`: return value of `glb_socket_create` on the control address (line 57);
* `listen_socket`: return value of `glb_socket_create` on the incoming address (line 66);
* `glb_router_create` ... `glb_ctrl_create`: the handles returned (lines 137-156);
* `glb_socket_addr_get_port`: the port of an address (line 155);
* `glb_terminate i`: the flag `glb_terminate` as read by the `i`-th evaluation
  of the loop condition (line 167);
* `glb_router_print_info i`, `glb_pool_print_info i`: the text the callee writes
  into `stats` in iteration `i` (lines 172, 175);
* `ctrl_fifo_init`, `listen_sock_init`: the indeterminate initial values of the
  uninitialised locals `ctrl_fifo` and `listen_sock` (line 107). -/
structure Env where
  glb_cnf_init : Bool
  glb_cmd_parse : Option glb_cnf_t
  glb_log_init : Int
  mkfifo : Int
  errno : Int
  sys_open : Int
  ctrl_socket : Int
  listen_socket : Int
  glb_router_create : Nat
  glb_pool_create : Nat
  glb_listener_create : Nat
  glb_socket_addr_get_port : glb_sockaddr_t → Nat
  glb_ctrl_create : Nat
  glb_terminate : Nat → Bool
  glb_router_print_info : Nat → String
  glb_pool_print_info : Nat → String
  ctrl_fifo_init : Int
  listen_sock_init : Int

/-! ## `allocate_resources` -/

/-- The three output parameters of `allocate_resources`, the calls made so
far, and the value returned. -/
structure Alloc where
  ctrl_fifo : Int
  ctrl_sock : Int
  listen_sock : Int
  trace : List Event
  ret : Int
deriving DecidableEq

/-- Label `cleanup1` (lines 82-85): remove the FIFO named by the global
configuration and return 1. -/
def cleanup1 (glb_cnf : glb_cnf_t) (s : Alloc) : Alloc :=
  { s with trace := s.trace ++ [Event.remove glb_cnf.fifo_name], ret := 1 }

/-- Label `cleanup2` (lines 79-81), falling through to `cleanup1`. -/
def cleanup2 (glb_cnf : glb_cnf_t) (s : Alloc) : Alloc :=
  cleanup1 glb_cnf { s with trace := s.trace ++ [Event.close s.ctrl_fifo], ctrl_fifo := 0 }

/-- Label `cleanup3` (lines 76-78), falling through to `cleanup2`. -/
def cleanup3 (glb_cnf : glb_cnf_t) (s : Alloc) : Alloc :=
  cleanup2 glb_cnf { s with trace := s.trace ++ [Event.close s.ctrl_sock], ctrl_sock := 0 }

/-- Lines 66-74 of `allocate_resources`: create the client listening socket. -/
def allocate_listen (glb_cnf conf : glb_cnf_t) (env : Env) (s : Alloc) : Alloc :=
  let s3 : Alloc :=
    { s with
      listen_sock := env.listen_socket
      trace := s.trace ++
        [Event.glb_socket_create conf.inc_addr glb_sock_flags.GLB_SOCK_DEFER_ACCEPT
          env.listen_socket] }
  if s3.listen_sock < 0 then cleanup3 glb_cnf s3 else { s3 with ret := 0 }

/-- The function `allocate_resources` (lines 25-86).  `conf` is the parameter,
`glb_cnf` the global configuration pointer that label `cleanup1` reads;
`ctrl_fifo`, `ctrl_sock`, `listen_sock` are the values the output parameters
point to on entry. -/
def allocate_resources (glb_cnf conf : glb_cnf_t) (env : Env)
    (ctrl_fifo ctrl_sock listen_sock : Int) : Alloc :=
  let s0 : Alloc :=
    { ctrl_fifo := ctrl_fifo, ctrl_sock := ctrl_sock, listen_sock := listen_sock
      trace := [Event.mkfifo conf.fifo_name (S_IRUSR ||| S_IWUSR) env.mkfifo]
      ret := 0 }
  if env.mkfifo ≠ 0 then
    { s0 with
      trace := s0.trace ++
        [Event.glb_log_error
          (if env.errno = EEXIST then Msg.fifo_exists conf.fifo_name
           else Msg.fifo_create_failed conf.fifo_name env.errno)]
      ret := 1 }
  else
    let s1 : Alloc :=
      { s0 with
        ctrl_fifo := env.sys_open
        trace := s0.trace ++ [Event.sys_open conf.fifo_name O_RDWR env.sys_open] }
    if s1.ctrl_fifo < 0 then
      cleanup1 glb_cnf
        { s1 with
          trace := s1.trace ++ [Event.glb_log_error (Msg.fifo_open_failed (-s1.ctrl_fifo))] }
    else if conf.ctrl_set then
      let s2 : Alloc :=
        { s1 with
          ctrl_sock := env.ctrl_socket
          trace := s1.trace ++
            [Event.glb_socket_create conf.ctrl_addr glb_sock_flags.GLB_SOCK_DEFER_ACCEPT
              env.ctrl_socket] }
      if s2.ctrl_sock < 0 then cleanup2 glb_cnf s2
      else allocate_listen glb_cnf conf env s2
    else allocate_listen glb_cnf conf env s1

/-! ## `free_resources` -/

/-- The function `free_resources` (lines 88-97): the calls it makes. -/
def free_resources (glb_cnf : glb_cnf_t) (ctrl_fifo ctrl_sock lsock : Int) : List Event :=
  (if lsock ≠ 0 then [Event.close lsock] else []) ++
  (if ctrl_sock ≠ 0 then [Event.close ctrl_sock] else []) ++
  (if ctrl_fifo ≠ 0 then [Event.close ctrl_fifo, Event.remove glb_cnf.fifo_name] else [])

/-! ## `main` -/

/-- A run of `main`: the calls made, and the exit status, `none` while the
idle loop is still running. -/
structure Run where
  trace : List Event
  status : Option Int
deriving DecidableEq

/-- Body of the idle loop (lines 169-179), iteration number `i`. -/
def loop_body (glb_cnf : glb_cnf_t) (env : Env) (router pool : Nat) (i : Nat) : List Event :=
  (if !glb_cnf.daemonize then
    [Event.glb_router_print_info router BUFSIZ, Event.puts (env.glb_router_print_info i),
     Event.glb_pool_print_info pool BUFSIZ, Event.puts (env.glb_pool_print_info i)]
   else []) ++
  [Event.sleep 5]

/-- The loop `while (!glb_terminate)` (lines 167-180), started at iteration
`i` and allowed `fuel` evaluations of its condition.  Returns the calls made
and whether the loop was left. -/
def idle_loop (glb_cnf : glb_cnf_t) (env : Env) (router pool : Nat) :
    Nat → Nat → List Event × Bool
  | 0, _ => ([], false)
  | fuel + 1, i =>
    if env.glb_terminate i then ([], true)
    else
      let rest := idle_loop glb_cnf env router pool fuel (i + 1)
      (loop_body glb_cnf env router pool i ++ rest.1, rest.2)

/-- Label `failure` of `main` (lines 192-194). -/
def failure (glb_cnf : glb_cnf_t) (trace : List Event)
    (ctrl_fifo ctrl_sock listen_sock : Int) : Run :=
  { trace := trace ++ free_resources glb_cnf ctrl_fifo ctrl_sock listen_sock
    status := some EXIT_FAILURE }

/-- The function `main` (lines 99-195), with `fuel` bounding the number of
times the idle loop evaluates its condition. -/
def main (argc : Int) (argv : List String) (env : Env) (fuel : Nat) : Run :=
  let ctrl_sock : Int := 0
  let t1 := [Event.glb_limits_init, Event.glb_cnf_init env.glb_cnf_init]
  if !env.glb_cnf_init then { trace := t1, status := some EXIT_FAILURE }
  else
    let t2 := t1 ++ [Event.glb_cmd_parse argc argv]
    match env.glb_cmd_parse with
    | none =>
      { trace := t2 ++ [Event.fprintf_stderr Msg.parse_failed], status := some EXIT_FAILURE }
    | some glb_cnf =>
      let t3 := t2 ++ [Event.glb_cnf_print glb_cnf, Event.glb_log_init env.glb_log_init]
      if env.glb_log_init ≠ 0 then
        { trace := t3 ++ [Event.fprintf_stderr Msg.logger_failed], status := some EXIT_FAILURE }
      else
        let a := allocate_resources glb_cnf glb_cnf env env.ctrl_fifo_init ctrl_sock
          env.listen_sock_init
        let t4 := t3 ++ a.trace
        if a.ret ≠ 0 then
          { trace := t4 ++ [Event.glb_log_fatal Msg.alloc_failed], status := some EXIT_FAILURE }
        else
          let t5 := t4 ++ [Event.glb_signal_set_handler] ++
            (if glb_cnf.daemonize then [Event.glb_daemon_start] else [])
          let router := env.glb_router_create
          let t6 := t5 ++ [Event.glb_router_create glb_cnf.n_dst glb_cnf.dst router]
          if router = 0 then
            failure glb_cnf (t6 ++ [Event.glb_log_fatal Msg.router_failed])
              a.ctrl_fifo a.ctrl_sock a.listen_sock
          else
            let pool := env.glb_pool_create
            let t7 := t6 ++ [Event.glb_pool_create glb_cnf.n_threads router pool]
            if pool = 0 then
              failure glb_cnf (t7 ++ [Event.glb_log_fatal Msg.pool_failed])
                a.ctrl_fifo a.ctrl_sock a.listen_sock
            else
              let listener := env.glb_listener_create
              let t8 := t7 ++ [Event.glb_listener_create router pool a.listen_sock listener]
              if listener = 0 then
                failure glb_cnf (t8 ++ [Event.glb_log_fatal Msg.listener_failed])
                  a.ctrl_fifo a.ctrl_sock a.listen_sock
              else
                let inc_port := env.glb_socket_addr_get_port glb_cnf.inc_addr % 2 ^ 16
                let ctrl := env.glb_ctrl_create
                let t9 := t8 ++
                  [Event.glb_socket_addr_get_port glb_cnf.inc_addr inc_port,
                   Event.glb_ctrl_create router pool inc_port a.ctrl_fifo a.ctrl_sock ctrl]
                if ctrl = 0 then
                  failure glb_cnf (t9 ++ [Event.glb_log_fatal Msg.ctrl_failed])
                    a.ctrl_fifo a.ctrl_sock a.listen_sock
                else
                  let t10 := t9 ++
                    (if glb_cnf.daemonize then
                      [Event.glb_daemon_ok, Event.glb_log_info Msg.started]
                     else [])
                  let l := idle_loop glb_cnf env router pool fuel 0
                  if !l.2 then { trace := t10 ++ l.1, status := none }
                  else
                    { trace := t10 ++ l.1 ++ [Event.glb_ctrl_destroy ctrl] ++
                        (if glb_cnf.daemonize then [Event.glb_log_info Msg.exit] else []) ++
                        free_resources glb_cnf a.ctrl_fifo a.ctrl_sock a.listen_sock
                      status := some 0 }

/-! ## Sample inputs -/

/-- A configuration without control address, running in the foreground. -/
def cnf_plain : glb_cnf_t :=
  { fifo_name := "/tmp/glbd.fifo", ctrl_set := false, ctrl_addr := ⟨0⟩, inc_addr := ⟨1⟩
    daemonize := false, n_dst := 1, dst := [⟨7⟩], n_threads := 2 }

/-- The same configuration with a control address. -/
def cnf_ctrl : glb_cnf_t := { cnf_plain with ctrl_set := true, ctrl_addr := ⟨2⟩ }

/-- Every call succeeds; descriptors 3, 4, 5; the termination flag is seen
set by the third evaluation of the loop condition. -/
def env_ok : Env :=
  { glb_cnf_init := true, glb_cmd_parse := some cnf_plain, glb_log_init := 0
    mkfifo := 0, errno := 0, sys_open := 3, ctrl_socket := 4, listen_socket := 5
    glb_router_create := 100, glb_pool_create := 200, glb_listener_create := 300
    glb_socket_addr_get_port := fun _ => 3306, glb_ctrl_create := 400
    glb_terminate := fun i => decide (2 ≤ i)
    glb_router_print_info := fun _ => "router", glb_pool_print_info := fun _ => "pool"
    ctrl_fifo_init := 77, listen_sock_init := 88 }

/-- The listening socket cannot be created: `glb_socket_create` on the
incoming address returns -1, everything else as in `env_ok`. -/
def env_listen_fails : Env := { env_ok with listen_socket := -1 }

/-- The FIFO path already exists: `mkfifo` fails with `EEXIST`, everything else
as in `env_ok`. -/
def env_fifo_exists : Env := { env_ok with mkfifo := -1, errno := 17 }

/-- The FIFO is opened as descriptor 0 (standard input was closed when glbd
was started) and `glb_router_create` returns `NULL`; otherwise as `env_ok`. -/
def env_fifo_zero : Env := { env_ok with sys_open := 0, glb_router_create := 0 }

/-- The router cannot be created, everything else as in `env_ok`. -/
def env_router_fails : Env := { env_ok with glb_router_create := 0 }

/-- The FIFO is opened as descriptor 0 and the control socket cannot be
created; otherwise as `env_ok`. -/
def env_fifo_zero_ctrl_fails : Env := { env_ok with sys_open := 0, ctrl_socket := -1 }

/-! ## Vocabulary for stating properties of traces -/

/-- The event is a call of `open`. -/
def Event.isOpen : Event → Bool
  | Event.sys_open _ _ _ => true
  | _ => false

/-- The event is a call of `glb_socket_create`. -/
def Event.isSocketCreate : Event → Bool
  | Event.glb_socket_create _ _ _ => true
  | _ => false

/-- The event is a call of `close`. -/
def Event.isClose : Event → Bool
  | Event.close _ => true
  | _ => false

/-- The event is a call of `remove`. -/
def Event.isRemove : Event → Bool
  | Event.remove _ => true
  | _ => false

/-- The event is a call of one of the four component constructors. -/
def Event.isCreate : Event → Bool
  | Event.glb_router_create _ _ _ => true
  | Event.glb_pool_create _ _ _ => true
  | Event.glb_listener_create _ _ _ _ => true
  | Event.glb_ctrl_create _ _ _ _ _ _ => true
  | _ => false

/-- The event is one of the calls of the idle loop body. -/
def Event.isReport : Event → Bool
  | Event.glb_router_print_info _ _ => true
  | Event.glb_pool_print_info _ _ => true
  | Event.puts _ => true
  | Event.sleep _ => true
  | _ => false

/-- Effect of one call on the set of descriptors held open: a successful
`open` or `glb_socket_create` adds the descriptor it returned, `close`
releases its argument. -/
def track_fd (fds : List Int) : Event → List Int
  | Event.sys_open _ _ r => if 0 ≤ r then r :: fds else fds
  | Event.glb_socket_create _ _ r => if 0 ≤ r then r :: fds else fds
  | Event.close fd => fds.filter (fun x => x ≠ fd)
  | _ => fds

/-- Descriptors acquired by the calls of a trace and not closed afterwards. -/
def open_fds (t : List Event) : List Int := t.foldl track_fd []

/-- Effect of one call on the set of FIFO paths created: a successful
`mkfifo` adds its path, `remove` deletes its argument. -/
def track_path (ps : List String) : Event → List String
  | Event.mkfifo p _ r => if r = 0 then p :: ps else ps
  | Event.remove p => ps.filter (fun x => x ≠ p)
  | _ => ps

/-- FIFO paths created by the calls of a trace and not removed afterwards. -/
def fifo_paths (t : List Event) : List String := t.foldl track_path []

/-- Every `close` in the trace is given a descriptor that an earlier `open` or
`glb_socket_create` of the same trace returned; `seen` are the descriptors
returned so far. -/
def closes_only_opened (seen : List Int) : List Event → Bool
  | [] => true
  | Event.sys_open _ _ r :: t => closes_only_opened (if 0 ≤ r then r :: seen else seen) t
  | Event.glb_socket_create _ _ r :: t =>
    closes_only_opened (if 0 ≤ r then r :: seen else seen) t
  | Event.close fd :: t => decide (fd ∈ seen) && closes_only_opened seen t
  | _ :: t => closes_only_opened seen t

/-- Position of a call in the startup sequence of `main`: 1 configuration
init, 2 argument parsing, 3 logger init, 4 the calls of `allocate_resources`,
5 router, 6 pool, 7 listener, 8 control; a call that prepares a step counts
with it, what comes after startup is 9, and diagnostics and releases
(`fprintf`, `glb_log_error`, `glb_log_fatal`, `close`, `remove`) are 0. -/
def Event.step : Event → Nat
  | Event.glb_limits_init => 1
  | Event.glb_cnf_init _ => 1
  | Event.glb_cmd_parse _ _ => 2
  | Event.glb_cnf_print _ => 3
  | Event.glb_log_init _ => 3
  | Event.mkfifo _ _ _ => 4
  | Event.sys_open _ _ _ => 4
  | Event.glb_socket_create _ _ _ => 4
  | Event.glb_signal_set_handler => 5
  | Event.glb_daemon_start => 5
  | Event.glb_router_create _ _ _ => 5
  | Event.glb_pool_create _ _ _ => 6
  | Event.glb_listener_create _ _ _ _ => 7
  | Event.glb_socket_addr_get_port _ _ => 8
  | Event.glb_ctrl_create _ _ _ _ _ _ => 8
  | Event.glb_daemon_ok => 9
  | Event.glb_log_info _ => 9
  | Event.glb_router_print_info _ _ => 9
  | Event.glb_pool_print_info _ _ => 9
  | Event.puts _ => 9
  | Event.sleep _ => 9
  | Event.glb_ctrl_destroy _ => 9
  | Event.fprintf_stderr _ => 0
  | Event.glb_log_error _ => 0
  | Event.glb_log_fatal _ => 0
  | Event.close _ => 0
  | Event.remove _ => 0

/-- The outcome recorded in `env` for startup step `k` is a failure.  Step 4
is `allocate_resources` called as `main` calls it. -/
def step_fails (env : Env) : Nat → Bool
  | 1 => !env.glb_cnf_init
  | 2 => env.glb_cmd_parse.isNone
  | 3 => decide (env.glb_log_init ≠ 0)
  | 4 =>
    match env.glb_cmd_parse with
    | some cnf =>
      decide ((allocate_resources cnf cnf env env.ctrl_fifo_init 0 env.listen_sock_init).ret ≠ 0)
    | none => false
  | 5 => decide (env.glb_router_create = 0)
  | 6 => decide (env.glb_pool_create = 0)
  | 7 => decide (env.glb_listener_create = 0)
  | 8 => decide (env.glb_ctrl_create = 0)
  | _ => false

/-! ## Lemmas on `allocate_resources`, `free_resources` and the idle loop -/

/-- When a call of `allocate_resources` succeeds, and what it then leaves
behind; used by the lemmas on `main`. -/
theorem allocate_resources_ok (glb_cnf conf : glb_cnf_t) (env : Env)
    (ctrl_fifo ctrl_sock listen_sock : Int) :
    ((allocate_resources glb_cnf conf env ctrl_fifo ctrl_sock listen_sock).ret = 0 ↔
        env.mkfifo = 0 ∧ 0 ≤ env.sys_open ∧ (conf.ctrl_set = true → 0 ≤ env.ctrl_socket) ∧
          0 ≤ env.listen_socket) ∧
    ((allocate_resources glb_cnf conf env ctrl_fifo ctrl_sock listen_sock).ret = 0 ∨
      (allocate_resources glb_cnf conf env ctrl_fifo ctrl_sock listen_sock).ret = 1) ∧
    ((allocate_resources glb_cnf conf env ctrl_fifo ctrl_sock listen_sock).ret = 0 →
      (allocate_resources glb_cnf conf env ctrl_fifo ctrl_sock listen_sock).ctrl_fifo
          = env.sys_open ∧
      (allocate_resources glb_cnf conf env ctrl_fifo ctrl_sock listen_sock).listen_sock
          = env.listen_socket ∧
      (allocate_resources glb_cnf conf env ctrl_fifo ctrl_sock listen_sock).ctrl_sock
          = (if conf.ctrl_set then env.ctrl_socket else ctrl_sock) ∧
      (allocate_resources glb_cnf conf env ctrl_fifo ctrl_sock listen_sock).trace
          = [Event.mkfifo conf.fifo_name (S_IRUSR ||| S_IWUSR) 0,
             Event.sys_open conf.fifo_name O_RDWR env.sys_open] ++
            (if conf.ctrl_set then
              [Event.glb_socket_create conf.ctrl_addr glb_sock_flags.GLB_SOCK_DEFER_ACCEPT
                env.ctrl_socket]
             else []) ++
            [Event.glb_socket_create conf.inc_addr glb_sock_flags.GLB_SOCK_DEFER_ACCEPT
              env.listen_socket] ∧
      ∀ e ∈ (allocate_resources glb_cnf conf env ctrl_fifo ctrl_sock listen_sock).trace,
        e.isClose = false ∧ e.isRemove = false) := by
  unfold allocate_resources allocate_listen cleanup3 cleanup2 cleanup1
  by_cases h1 : env.mkfifo = 0 <;> by_cases h2 : env.sys_open < 0 <;>
    by_cases h3 : conf.ctrl_set = true <;> by_cases h4 : env.ctrl_socket < 0 <;>
    by_cases h5 : env.listen_socket < 0 <;>
    simp [h1, h2, h3, h4, h5, Event.isClose, Event.isRemove, not_lt.mp, not_le.mpr]

/-- The calls of `allocate_resources` are step 4 of startup, or diagnostics
and releases. -/
theorem allocate_resources_step (glb_cnf conf : glb_cnf_t) (env : Env)
    (ctrl_fifo ctrl_sock listen_sock : Int) :
    ∀ e ∈ (allocate_resources glb_cnf conf env ctrl_fifo ctrl_sock listen_sock).trace,
      e.step ≤ 4 := by
  unfold allocate_resources allocate_listen cleanup3 cleanup2 cleanup1
  by_cases h1 : env.mkfifo = 0 <;> by_cases h2 : env.sys_open < 0 <;>
    by_cases h3 : conf.ctrl_set = true <;> by_cases h4 : env.ctrl_socket < 0 <;>
    by_cases h5 : env.listen_socket < 0 <;>
    simp [h1, h2, h3, h4, h5, Event.step]

/-- With a control address configured, every descriptor that
`allocate_resources` closes was returned to it during the call. -/
theorem allocate_resources_closes_only_opened_of_ctrl_set (glb_cnf conf : glb_cnf_t)
    (env : Env) (ctrl_fifo ctrl_sock listen_sock : Int) (hset : conf.ctrl_set = true) :
    closes_only_opened []
      (allocate_resources glb_cnf conf env ctrl_fifo ctrl_sock listen_sock).trace = true := by
  unfold allocate_resources allocate_listen cleanup3 cleanup2 cleanup1
  by_cases h1 : env.mkfifo = 0 <;> by_cases h2 : env.sys_open < 0 <;>
    by_cases h4 : env.ctrl_socket < 0 <;> by_cases h5 : env.listen_socket < 0 <;>
    simp [h1, h2, hset, h4, h5, closes_only_opened, not_lt.mp, not_le.mpr]

/-- Without a control address, a failure to create the listening socket makes
`allocate_resources` close the value `ctrl_sock` had on entry. -/
theorem allocate_resources_closes_incoming_ctrl_sock (glb_cnf conf : glb_cnf_t)
    (env : Env) (ctrl_fifo ctrl_sock listen_sock : Int) (hset : conf.ctrl_set = false)
    (h1 : env.mkfifo = 0) (h2 : 0 ≤ env.sys_open) (h5 : env.listen_socket < 0) :
    Event.close ctrl_sock ∈
      (allocate_resources glb_cnf conf env ctrl_fifo ctrl_sock listen_sock).trace := by
  unfold allocate_resources allocate_listen cleanup3 cleanup2 cleanup1
  simp [h1, hset, h5, not_lt.mpr h2]

/-- The calls of `free_resources` are releases. -/
theorem free_resources_step (glb_cnf : glb_cnf_t) (ctrl_fifo ctrl_sock lsock : Int) :
    ∀ e ∈ free_resources glb_cnf ctrl_fifo ctrl_sock lsock, e.step = 0 := by
  unfold free_resources
  by_cases h1 : lsock = 0 <;> by_cases h2 : ctrl_sock = 0 <;> by_cases h3 : ctrl_fifo = 0 <;>
    simp [h1, h2, h3, Event.step]

/-- The idle loop runs some number `n` of iterations, one for each time the
flag was read clear, and is left exactly when the flag is then read set. -/
theorem idle_loop_spec (glb_cnf : glb_cnf_t) (env : Env) (router pool : Nat) :
    ∀ fuel i, ∃ n, n ≤ fuel ∧ (∀ m, m < n → env.glb_terminate (i + m) = false) ∧
      (idle_loop glb_cnf env router pool fuel i).1 =
        (List.range n).flatMap (fun k => loop_body glb_cnf env router pool (i + k)) ∧
      ((idle_loop glb_cnf env router pool fuel i).2 = true →
        n < fuel ∧ env.glb_terminate (i + n) = true) ∧
      ((idle_loop glb_cnf env router pool fuel i).2 = false → n = fuel) := by
  intro fuel
  induction fuel with
  | zero => intro i; exact ⟨0, by simp [idle_loop]⟩
  | succ fuel ih =>
    intro i
    by_cases ht : env.glb_terminate i = true
    · exact ⟨0, by simp [idle_loop, ht]⟩
    · obtain ⟨n, hn, hclear, htrace, hleft, hrun⟩ := ih (i + 1)
      refine ⟨n + 1, by omega, ?_, ?_, ?_, ?_⟩
      · intro m hm
        cases m with
        | zero => simpa using ht
        | succ m => have := hclear m (by omega); rwa [show i + (m + 1) = i + 1 + m by omega]
      · simp only [idle_loop, ht, Bool.false_eq_true, if_false, htrace,
          List.range_succ_eq_map, List.flatMap_cons, List.flatMap_map, Nat.add_zero]
        congr 2
        funext k
        congr 1
        omega
      · intro h
        simp only [idle_loop, ht, Bool.false_eq_true, if_false] at h
        obtain ⟨h1, h2⟩ := hleft h
        exact ⟨by omega, by rwa [show i + (n + 1) = i + 1 + n by omega]⟩
      · intro h
        simp only [idle_loop, ht, Bool.false_eq_true, if_false] at h
        have := hrun h
        omega

/-- The idle loop makes no call other than those of its body. -/
theorem idle_loop_isReport (glb_cnf : glb_cnf_t) (env : Env) (router pool : Nat)
    (fuel i : Nat) : ∀ e ∈ (idle_loop glb_cnf env router pool fuel i).1, e.isReport = true := by
  obtain ⟨n, -, -, htrace, -, -⟩ := idle_loop_spec glb_cnf env router pool fuel i
  rw [htrace]
  intro e he
  obtain ⟨k, -, hk⟩ := List.mem_flatMap.mp he
  unfold loop_body at hk
  by_cases hd : glb_cnf.daemonize = true <;> simp [hd] at hk
  · simp [hk, Event.isReport]
  · rcases hk with h | h | h | h | h <;> simp [h, Event.isReport]

/-- Whether the idle loop is left within `fuel` evaluations of its condition
is a matter of the termination flag alone. -/
theorem idle_loop_left_iff (glb_cnf : glb_cnf_t) (env : Env) (router pool : Nat)
    (fuel : Nat) :
    (idle_loop glb_cnf env router pool fuel 0).2 = true ↔
      ∃ n, n < fuel ∧ env.glb_terminate n = true ∧ ∀ m, m < n → env.glb_terminate m = false := by
  obtain ⟨n, hn, hclear, -, hleft, hrun⟩ := idle_loop_spec glb_cnf env router pool fuel 0
  simp only [Nat.zero_add] at hclear hleft
  constructor
  · intro h
    exact ⟨n, (hleft h).1, (hleft h).2, hclear⟩
  · rintro ⟨k, hk, hset, -⟩
    by_contra hnot
    have hfuel := hrun (by simpa using hnot)
    have := hclear k (by omega)
    simp [hset] at this

/-- The calls of the idle loop body come after startup. -/
theorem step_of_isReport (e : Event) (h : e.isReport = true) : e.step = 9 := by
  cases e <;> simp [Event.isReport, Event.step] at h ⊢

/-- A call of the idle loop body is neither a `close`, a `remove` nor a
`glb_ctrl_destroy`. -/
theorem not_teardown_of_isReport (e : Event) (h : e.isReport = true) :
    e.isClose = false ∧ e.isRemove = false ∧ ∀ c, e ≠ Event.glb_ctrl_destroy c := by
  cases e <;> simp [Event.isReport, Event.isClose, Event.isRemove] at h ⊢

/-- The call `glb_daemon_start` and the component constructors belong to startup
steps 5 to 8. -/
theorem five_le_step_of_isCreate (e : Event)
    (h : e = Event.glb_daemon_start ∨ e.isCreate = true) : 5 ≤ e.step := by
  rcases h with h | h
  · subst h; simp [Event.step]
  · cases e <;> simp [Event.isCreate, Event.step] at h ⊢

/-- If a list splits as `A ++ B` and as `pre ++ e :: post`, and `e` is not
among the elements of `A`, then `A` is an initial part of `pre`. -/
theorem prefix_before_of_not_mem {α : Type} (A B pre post : List α) (e : α)
    (hA : e ∉ A) (h : A ++ B = pre ++ e :: post) : ∃ mid, pre = A ++ mid := by
  induction A generalizing pre with
  | nil => exact ⟨pre, rfl⟩
  | cons a A ih =>
    cases pre with
    | nil =>
      simp only [List.cons_append, List.nil_append, List.cons.injEq] at h
      exact absurd (by simp [h.1]) hA
    | cons b pre =>
      simp only [List.cons_append, List.cons.injEq] at h
      obtain ⟨mid, hmid⟩ := ih pre (fun hm => hA (List.mem_cons_of_mem _ hm)) h.2
      exact ⟨mid, by simp [h.1, hmid]⟩

/-! ## Lemmas on the runs of `main` -/

/-- Exit-code bookkeeping shared by the failing branches of `main`: a run that
ends with `EXIT_FAILURE` at the first failing step `j`, having made no call
beyond step `j`. -/
theorem exit_codes_of_failure (env : Env) (fuel : Nat) (r : Run) (j : Nat)
    (hst : r.status = some EXIT_FAILURE) (hj : step_fails env j = true)
    (hfirst : ∀ k, step_fails env k = true → j ≤ k)
    (htr : ∀ e ∈ r.trace, e.step ≤ j) :
    (r.status = some 0 ↔
      (∀ k, step_fails env k = false) ∧
        ∃ n, n < fuel ∧ env.glb_terminate n = true ∧
          ∀ m, m < n → env.glb_terminate m = false) ∧
    ((∃ k, step_fails env k = true) → r.status = some EXIT_FAILURE) ∧
    EXIT_FAILURE ≠ 0 ∧
    (∀ k, step_fails env k = true → ∀ e ∈ r.trace, e.step ≤ k) := by
  have hne : EXIT_FAILURE ≠ 0 := by decide
  refine ⟨⟨fun h => ?_, fun h => ?_⟩, fun _ => hst, hne, fun k hk e he => ?_⟩
  · rw [hst] at h
    exact absurd (Option.some.inj h) hne
  · simp [h.1 j] at hj
  · exact le_trans (htr e he) (hfirst k hk)

/-- The runs of `main`, by the first startup step that fails.  Either step `j`
fails and no earlier one does, `main` ends with `EXIT_FAILURE` and has made no
call beyond step `j`; or no step fails. -/
theorem main_run_cases (argc : Int) (argv : List String) (env : Env) (fuel : Nat) :
    (∃ j, step_fails env j = true ∧ (∀ k, step_fails env k = true → j ≤ k) ∧
      (main argc argv env fuel).status = some EXIT_FAILURE ∧
      (∀ e ∈ (main argc argv env fuel).trace, e.step ≤ j) ∧
      (8 ≤ j → ∃ cnf, env.glb_cnf_init = true ∧ env.glb_cmd_parse = some cnf ∧
        env.glb_log_init = 0 ∧
        (allocate_resources cnf cnf env env.ctrl_fifo_init 0 env.listen_sock_init).ret = 0 ∧
        env.glb_router_create ≠ 0 ∧ env.glb_pool_create ≠ 0 ∧
        env.glb_listener_create ≠ 0)) ∨
    ((∀ k, step_fails env k = false) ∧
      ∃ cnf, env.glb_cnf_init = true ∧ env.glb_cmd_parse = some cnf ∧ env.glb_log_init = 0 ∧
        (allocate_resources cnf cnf env env.ctrl_fifo_init 0 env.listen_sock_init).ret = 0 ∧
        env.glb_router_create ≠ 0 ∧ env.glb_pool_create ≠ 0 ∧
        env.glb_listener_create ≠ 0 ∧ env.glb_ctrl_create ≠ 0) := by
  by_cases hc : env.glb_cnf_init = true
  swap
  · refine Or.inl ⟨1, by simp [step_fails, hc], fun k hk => ?_, by simp [main, hc],
        fun e he => ?_,
        fun h => absurd h (by decide)⟩
    · rcases k with _ | k
      · simp [step_fails] at hk
      · omega
    · simp [main, hc] at he
      casesm* _ ∨ _ <;> subst_vars <;> simp [Event.step]
  cases hp : env.glb_cmd_parse with
  | none =>
    refine Or.inl ⟨2, by simp [step_fails, hp], fun k hk => ?_, by simp [main, hc, hp],
        fun e he => ?_,
        fun h => absurd h (by decide)⟩
    · rcases k with _ | _ | k
      · simp [step_fails] at hk
      · simp [step_fails, hc] at hk
      · omega
    · simp [main, hc, hp] at he
      casesm* _ ∨ _ <;> subst_vars <;> simp [Event.step]
  | some cnf =>
    by_cases hl : env.glb_log_init = 0
    swap
    · refine Or.inl ⟨3, by simp [step_fails, hl], fun k hk => ?_, by simp [main, hc, hp, hl],
        fun e he => ?_,
        fun h => absurd h (by decide)⟩
      · rcases k with _ | _ | _ | k
        · simp [step_fails] at hk
        · simp [step_fails, hc] at hk
        · simp [step_fails, hp] at hk
        · omega
      · simp [main, hc, hp, hl] at he
        casesm* _ ∨ _ <;> subst_vars <;> simp [Event.step]
    by_cases ha : (allocate_resources cnf cnf env env.ctrl_fifo_init 0
        env.listen_sock_init).ret = 0
    swap
    · refine Or.inl ⟨4, by simp [step_fails, hp, ha], fun k hk => ?_, by simp [main, hc, hp, hl, ha],
        fun e he => ?_,
        fun h => absurd h (by decide)⟩
      · rcases k with _ | _ | _ | _ | k
        · simp [step_fails] at hk
        · simp [step_fails, hc] at hk
        · simp [step_fails, hp] at hk
        · simp [step_fails, hl] at hk
        · omega
      · simp [main, hc, hp, hl, ha] at he
        casesm* _ ∨ _ <;>
          first
          | (subst_vars; simp [Event.step]; done)
          | exact le_trans (allocate_resources_step _ _ _ _ _ _ e (by assumption)) (by omega)
    have hd : cnf.daemonize = true ∨ cnf.daemonize = false := by
      cases cnf.daemonize <;> simp
    by_cases hr : env.glb_router_create = 0
    · rcases hd with hd | hd <;>
      refine Or.inl ⟨5, by simp [step_fails, hp, hr], fun k hk => ?_, by simp [main, failure, hc, hp, hl, ha, hd, hr],
        fun e he => ?_,
        fun h => absurd h (by decide)⟩
      · rcases k with _ | _ | _ | _ | _ | k
        · simp [step_fails] at hk
        · simp [step_fails, hc] at hk
        · simp [step_fails, hp] at hk
        · simp [step_fails, hl] at hk
        · simp [step_fails, hp, ha] at hk
        · omega
      · simp [main, failure, hc, hp, hl, ha, hd, hr] at he
        casesm* _ ∨ _ <;>
          first
          | (subst_vars; simp [Event.step]; done)
          | exact le_trans (allocate_resources_step _ _ _ _ _ _ e (by assumption)) (by omega)
          | (rw [free_resources_step _ _ _ _ e (by assumption)]; omega)
      · rcases k with _ | _ | _ | _ | _ | k
        · simp [step_fails] at hk
        · simp [step_fails, hc] at hk
        · simp [step_fails, hp] at hk
        · simp [step_fails, hl] at hk
        · simp [step_fails, hp, ha] at hk
        · omega
      · simp [main, failure, hc, hp, hl, ha, hd, hr] at he
        casesm* _ ∨ _ <;>
          first
          | (subst_vars; simp [Event.step]; done)
          | exact le_trans (allocate_resources_step _ _ _ _ _ _ e (by assumption)) (by omega)
          | (rw [free_resources_step _ _ _ _ e (by assumption)]; omega)
    by_cases hpl : env.glb_pool_create = 0
    · rcases hd with hd | hd <;>
      refine Or.inl ⟨6, by simp [step_fails, hp, hr, hpl], fun k hk => ?_, by simp [main, failure, hc, hp, hl, ha, hd, hr, hpl],
        fun e he => ?_,
        fun h => absurd h (by decide)⟩
      · rcases k with _ | _ | _ | _ | _ | _ | k
        · simp [step_fails] at hk
        · simp [step_fails, hc] at hk
        · simp [step_fails, hp] at hk
        · simp [step_fails, hl] at hk
        · simp [step_fails, hp, ha] at hk
        · simp [step_fails, hr] at hk
        · omega
      · simp [main, failure, hc, hp, hl, ha, hd, hr, hpl] at he
        casesm* _ ∨ _ <;>
          first
          | (subst_vars; simp [Event.step]; done)
          | exact le_trans (allocate_resources_step _ _ _ _ _ _ e (by assumption)) (by omega)
          | (rw [free_resources_step _ _ _ _ e (by assumption)]; omega)
      · rcases k with _ | _ | _ | _ | _ | _ | k
        · simp [step_fails] at hk
        · simp [step_fails, hc] at hk
        · simp [step_fails, hp] at hk
        · simp [step_fails, hl] at hk
        · simp [step_fails, hp, ha] at hk
        · simp [step_fails, hr] at hk
        · omega
      · simp [main, failure, hc, hp, hl, ha, hd, hr, hpl] at he
        casesm* _ ∨ _ <;>
          first
          | (subst_vars; simp [Event.step]; done)
          | exact le_trans (allocate_resources_step _ _ _ _ _ _ e (by assumption)) (by omega)
          | (rw [free_resources_step _ _ _ _ e (by assumption)]; omega)
    by_cases hli : env.glb_listener_create = 0
    · rcases hd with hd | hd <;>
      refine Or.inl ⟨7, by simp [step_fails, hp, hr, hpl, hli], fun k hk => ?_, by simp [main, failure, hc, hp, hl, ha, hd, hr, hpl, hli],
        fun e he => ?_,
        fun h => absurd h (by decide)⟩
      · rcases k with _ | _ | _ | _ | _ | _ | _ | k
        · simp [step_fails] at hk
        · simp [step_fails, hc] at hk
        · simp [step_fails, hp] at hk
        · simp [step_fails, hl] at hk
        · simp [step_fails, hp, ha] at hk
        · simp [step_fails, hr] at hk
        · simp [step_fails, hpl] at hk
        · omega
      · simp [main, failure, hc, hp, hl, ha, hd, hr, hpl, hli] at he
        casesm* _ ∨ _ <;>
          first
          | (subst_vars; simp [Event.step]; done)
          | exact le_trans (allocate_resources_step _ _ _ _ _ _ e (by assumption)) (by omega)
          | (rw [free_resources_step _ _ _ _ e (by assumption)]; omega)
      · rcases k with _ | _ | _ | _ | _ | _ | _ | k
        · simp [step_fails] at hk
        · simp [step_fails, hc] at hk
        · simp [step_fails, hp] at hk
        · simp [step_fails, hl] at hk
        · simp [step_fails, hp, ha] at hk
        · simp [step_fails, hr] at hk
        · simp [step_fails, hpl] at hk
        · omega
      · simp [main, failure, hc, hp, hl, ha, hd, hr, hpl, hli] at he
        casesm* _ ∨ _ <;>
          first
          | (subst_vars; simp [Event.step]; done)
          | exact le_trans (allocate_resources_step _ _ _ _ _ _ e (by assumption)) (by omega)
          | (rw [free_resources_step _ _ _ _ e (by assumption)]; omega)
    by_cases hct : env.glb_ctrl_create = 0
    · rcases hd with hd | hd <;>
      refine Or.inl ⟨8, by simp [step_fails, hp, hr, hpl, hli, hct], fun k hk => ?_, by simp [main, failure, hc, hp, hl, ha, hd, hr, hpl, hli, hct],
        fun e he => ?_,
        fun _ => ⟨cnf, hc, rfl, hl, ha, hr, hpl, hli⟩⟩
      · rcases k with _ | _ | _ | _ | _ | _ | _ | _ | k
        · simp [step_fails] at hk
        · simp [step_fails, hc] at hk
        · simp [step_fails, hp] at hk
        · simp [step_fails, hl] at hk
        · simp [step_fails, hp, ha] at hk
        · simp [step_fails, hr] at hk
        · simp [step_fails, hpl] at hk
        · simp [step_fails, hli] at hk
        · omega
      · simp [main, failure, hc, hp, hl, ha, hd, hr, hpl, hli, hct] at he
        casesm* _ ∨ _ <;>
          first
          | (subst_vars; simp [Event.step]; done)
          | exact le_trans (allocate_resources_step _ _ _ _ _ _ e (by assumption)) (by omega)
          | (rw [free_resources_step _ _ _ _ e (by assumption)]; omega)
      · rcases k with _ | _ | _ | _ | _ | _ | _ | _ | k
        · simp [step_fails] at hk
        · simp [step_fails, hc] at hk
        · simp [step_fails, hp] at hk
        · simp [step_fails, hl] at hk
        · simp [step_fails, hp, ha] at hk
        · simp [step_fails, hr] at hk
        · simp [step_fails, hpl] at hk
        · simp [step_fails, hli] at hk
        · omega
      · simp [main, failure, hc, hp, hl, ha, hd, hr, hpl, hli, hct] at he
        casesm* _ ∨ _ <;>
          first
          | (subst_vars; simp [Event.step]; done)
          | exact le_trans (allocate_resources_step _ _ _ _ _ _ e (by assumption)) (by omega)
          | (rw [free_resources_step _ _ _ _ e (by assumption)]; omega)
    have hok : ∀ k, step_fails env k = false := by
      intro k
      rcases k with _ | _ | _ | _ | _ | _ | _ | _ | _ | k <;>
        simp [step_fails, hc, hp, hl, ha, hr, hpl, hli, hct]
    exact Or.inr ⟨hok, cnf, hc, rfl, hl, ha, hr, hpl, hli, hct⟩

/-- A run of `main` in which every startup step succeeds: the calls of startup
(those of the run without fuel), then the calls of the idle loop, then, once
the loop is left, `glb_ctrl_destroy`, the optional log line and the calls of
`free_resources`; the status is 0 once the loop is left. -/
theorem main_started (argc : Int) (argv : List String) (env : Env) (fuel : Nat)
    (cnf : glb_cnf_t) (hc : env.glb_cnf_init = true) (hp : env.glb_cmd_parse = some cnf)
    (hl : env.glb_log_init = 0)
    (ha : (allocate_resources cnf cnf env env.ctrl_fifo_init 0 env.listen_sock_init).ret = 0)
    (hr : env.glb_router_create ≠ 0) (hpl : env.glb_pool_create ≠ 0)
    (hli : env.glb_listener_create ≠ 0) (hct : env.glb_ctrl_create ≠ 0) :
    main argc argv env fuel =
      { trace := (main argc argv env 0).trace ++
          (idle_loop cnf env env.glb_router_create env.glb_pool_create fuel 0).1 ++
          (if (idle_loop cnf env env.glb_router_create env.glb_pool_create fuel 0).2 then
            Event.glb_ctrl_destroy env.glb_ctrl_create ::
              ((if cnf.daemonize then [Event.glb_log_info Msg.exit] else []) ++
                free_resources cnf
                  (allocate_resources cnf cnf env env.ctrl_fifo_init 0
                    env.listen_sock_init).ctrl_fifo
                  (allocate_resources cnf cnf env env.ctrl_fifo_init 0
                    env.listen_sock_init).ctrl_sock
                  (allocate_resources cnf cnf env env.ctrl_fifo_init 0
                    env.listen_sock_init).listen_sock)
           else [])
        status :=
          if (idle_loop cnf env env.glb_router_create env.glb_pool_create fuel 0).2 then some 0
          else none } ∧
    (main argc argv env 0).trace =
      Event.glb_limits_init :: Event.glb_cnf_init true :: Event.glb_cmd_parse argc argv ::
        Event.glb_cnf_print cnf :: Event.glb_log_init 0 ::
        ((allocate_resources cnf cnf env env.ctrl_fifo_init 0 env.listen_sock_init).trace ++
          Event.glb_signal_set_handler ::
          ((if cnf.daemonize then [Event.glb_daemon_start] else []) ++
            Event.glb_router_create cnf.n_dst cnf.dst env.glb_router_create ::
            Event.glb_pool_create cnf.n_threads env.glb_router_create env.glb_pool_create ::
            Event.glb_listener_create env.glb_router_create env.glb_pool_create
              (allocate_resources cnf cnf env env.ctrl_fifo_init 0
                env.listen_sock_init).listen_sock env.glb_listener_create ::
            Event.glb_socket_addr_get_port cnf.inc_addr
              (env.glb_socket_addr_get_port cnf.inc_addr % 2 ^ 16) ::
            Event.glb_ctrl_create env.glb_router_create env.glb_pool_create
              (env.glb_socket_addr_get_port cnf.inc_addr % 2 ^ 16)
              (allocate_resources cnf cnf env env.ctrl_fifo_init 0
                env.listen_sock_init).ctrl_fifo
              (allocate_resources cnf cnf env env.ctrl_fifo_init 0
                env.listen_sock_init).ctrl_sock env.glb_ctrl_create ::
            (if cnf.daemonize then [Event.glb_daemon_ok, Event.glb_log_info Msg.started]
             else []))) := by
  constructor
  · cases hl2 : (idle_loop cnf env env.glb_router_create env.glb_pool_create fuel 0).2 <;>
      cases hd : cnf.daemonize <;>
      simp [main, idle_loop, hc, hp, hl, ha, hr, hpl, hli, hct, hl2, hd]
  · cases hd : cnf.daemonize <;>
      simp [main, idle_loop, hc, hp, hl, ha, hr, hpl, hli, hct, hd]

/-- Either `main` stops no later than `allocate_resources`, having made no
call beyond startup step 4, or configuration init, argument parsing, logger
init and `allocate_resources` all succeeded. -/
theorem main_alloc_cases (argc : Int) (argv : List String) (env : Env) (fuel : Nat) :
    (∀ e ∈ (main argc argv env fuel).trace, e.step ≤ 4) ∨
    ∃ cnf, env.glb_cnf_init = true ∧ env.glb_cmd_parse = some cnf ∧ env.glb_log_init = 0 ∧
      (allocate_resources cnf cnf env env.ctrl_fifo_init 0 env.listen_sock_init).ret = 0 := by
  by_cases hc : env.glb_cnf_init = true
  swap
  · left
    intro e he
    simp [main, hc] at he
    casesm* _ ∨ _ <;> subst_vars <;> simp [Event.step]
  cases hp : env.glb_cmd_parse with
  | none =>
    left
    intro e he
    simp [main, hc, hp] at he
    casesm* _ ∨ _ <;> subst_vars <;> simp [Event.step]
  | some cnf =>
    by_cases hl : env.glb_log_init = 0
    swap
    · left
      intro e he
      simp [main, hc, hp, hl] at he
      casesm* _ ∨ _ <;> subst_vars <;> simp [Event.step]
    by_cases ha : (allocate_resources cnf cnf env env.ctrl_fifo_init 0
        env.listen_sock_init).ret = 0
    swap
    · left
      intro e he
      simp [main, hc, hp, hl, ha] at he
      casesm* _ ∨ _ <;>
        first
        | (subst_vars; simp [Event.step]; done)
        | exact allocate_resources_step _ _ _ _ _ _ e (by assumption)
    exact Or.inr ⟨cnf, hc, rfl, hl, ha⟩

/-- Once `allocate_resources` has succeeded, the trace of `main` starts with
the five calls that precede it and with its calls, and what follows hands the
descriptors it produced to `glb_listener_create` and `glb_ctrl_create`. -/
theorem main_after_alloc (argc : Int) (argv : List String) (env : Env) (fuel : Nat)
    (cnf : glb_cnf_t) (hc : env.glb_cnf_init = true) (hp : env.glb_cmd_parse = some cnf)
    (hl : env.glb_log_init = 0)
    (ha : (allocate_resources cnf cnf env env.ctrl_fifo_init 0 env.listen_sock_init).ret = 0) :
    ∃ tail, (main argc argv env fuel).trace =
        Event.glb_limits_init :: Event.glb_cnf_init true :: Event.glb_cmd_parse argc argv ::
          Event.glb_cnf_print cnf :: Event.glb_log_init 0 ::
          ((allocate_resources cnf cnf env env.ctrl_fifo_init 0 env.listen_sock_init).trace
            ++ tail) ∧
      (∀ r p s l, Event.glb_listener_create r p s l ∈ tail →
        s = (allocate_resources cnf cnf env env.ctrl_fifo_init 0
          env.listen_sock_init).listen_sock) ∧
      (∀ r p port f s c, Event.glb_ctrl_create r p port f s c ∈ tail →
        f = (allocate_resources cnf cnf env env.ctrl_fifo_init 0
          env.listen_sock_init).ctrl_fifo ∧
        s = (allocate_resources cnf cnf env env.ctrl_fifo_init 0
          env.listen_sock_init).ctrl_sock) := by
  have hd : cnf.daemonize = true ∨ cnf.daemonize = false := by
    cases cnf.daemonize <;> simp
  by_cases hr : env.glb_router_create = 0
  · rcases hd with hd | hd <;>
    simp only [main, failure, hc, hp, hl, ha, hd, hr, Bool.not_true, Bool.not_false,
      Bool.false_eq_true, if_false, ne_eq, not_true_eq_false, not_false_eq_true, if_true,
      List.append_assoc, List.cons_append, List.nil_append] <;>
    refine ⟨_, rfl, fun r p s l h => ?_, fun r p port f s c h => ?_⟩ <;>
    simp at h <;>
    (try casesm* _ ∨ _) <;>
    first
    | (simp_all; done)
    | (exfalso; have := idle_loop_isReport _ _ _ _ _ _ _ (by assumption)
       simp [Event.isReport] at this; done)
    | (exfalso; have := free_resources_step _ _ _ _ _ (by assumption)
       simp [Event.step] at this; done)
  by_cases hpl : env.glb_pool_create = 0
  · rcases hd with hd | hd <;>
    simp only [main, failure, hc, hp, hl, ha, hd, hr, hpl, Bool.not_true, Bool.not_false,
      Bool.false_eq_true, if_false, ne_eq, not_true_eq_false, not_false_eq_true, if_true,
      List.append_assoc, List.cons_append, List.nil_append] <;>
    refine ⟨_, rfl, fun r p s l h => ?_, fun r p port f s c h => ?_⟩ <;>
    simp at h <;>
    (try casesm* _ ∨ _) <;>
    first
    | (simp_all; done)
    | (exfalso; have := idle_loop_isReport _ _ _ _ _ _ _ (by assumption)
       simp [Event.isReport] at this; done)
    | (exfalso; have := free_resources_step _ _ _ _ _ (by assumption)
       simp [Event.step] at this; done)
  by_cases hli : env.glb_listener_create = 0
  · rcases hd with hd | hd <;>
    simp only [main, failure, hc, hp, hl, ha, hd, hr, hpl, hli, Bool.not_true, Bool.not_false,
      Bool.false_eq_true, if_false, ne_eq, not_true_eq_false, not_false_eq_true, if_true,
      List.append_assoc, List.cons_append, List.nil_append] <;>
    refine ⟨_, rfl, fun r p s l h => ?_, fun r p port f s c h => ?_⟩ <;>
    simp at h <;>
    (try casesm* _ ∨ _) <;>
    first
    | (simp_all; done)
    | (exfalso; have := idle_loop_isReport _ _ _ _ _ _ _ (by assumption)
       simp [Event.isReport] at this; done)
    | (exfalso; have := free_resources_step _ _ _ _ _ (by assumption)
       simp [Event.step] at this; done)
  by_cases hct : env.glb_ctrl_create = 0
  · rcases hd with hd | hd <;>
    simp only [main, failure, hc, hp, hl, ha, hd, hr, hpl, hli, hct, Bool.not_true, Bool.not_false,
      Bool.false_eq_true, if_false, ne_eq, not_true_eq_false, not_false_eq_true, if_true,
      List.append_assoc, List.cons_append, List.nil_append] <;>
    refine ⟨_, rfl, fun r p s l h => ?_, fun r p port f s c h => ?_⟩ <;>
    simp at h <;>
    (try casesm* _ ∨ _) <;>
    first
    | (simp_all; done)
    | (exfalso; have := idle_loop_isReport _ _ _ _ _ _ _ (by assumption)
       simp [Event.isReport] at this; done)
    | (exfalso; have := free_resources_step _ _ _ _ _ (by assumption)
       simp [Event.step] at this; done)
  cases hl2 : (idle_loop cnf env env.glb_router_create env.glb_pool_create fuel 0).2 <;>
  rcases hd with hd | hd <;>
  simp only [main, failure, hc, hp, hl, ha, hd, hr, hpl, hli, hct, hl2, Bool.not_true, Bool.not_false,
    Bool.false_eq_true, if_false, ne_eq, not_true_eq_false, not_false_eq_true, if_true,
    List.append_assoc, List.cons_append, List.nil_append] <;>
  refine ⟨_, rfl, fun r p s l h => ?_, fun r p port f s c h => ?_⟩ <;>
  simp at h <;>
  (try casesm* _ ∨ _) <;>
  first
  | (simp_all; done)
  | (exfalso; have := idle_loop_isReport _ _ _ _ _ _ _ (by assumption)
     simp [Event.isReport] at this; done)
  | (exfalso; have := free_resources_step _ _ _ _ _ (by assumption)
     simp [Event.step] at this; done)

/-- Once the listener has been created, the trace of `main` consists of the
calls up to `glb_socket_addr_get_port`, the one call of `glb_ctrl_create` on
the router and pool handles just obtained, and a remainder without any call of
`glb_ctrl_create`. -/
theorem main_ctrl_create_split (argc : Int) (argv : List String) (env : Env) (fuel : Nat)
    (cnf : glb_cnf_t) (hc : env.glb_cnf_init = true) (hp : env.glb_cmd_parse = some cnf)
    (hl : env.glb_log_init = 0)
    (ha : (allocate_resources cnf cnf env env.ctrl_fifo_init 0 env.listen_sock_init).ret = 0)
    (hr : env.glb_router_create ≠ 0) (hpl : env.glb_pool_create ≠ 0)
    (hli : env.glb_listener_create ≠ 0) :
    ∃ tail, (main argc argv env fuel).trace =
        Event.glb_limits_init :: Event.glb_cnf_init true :: Event.glb_cmd_parse argc argv ::
          Event.glb_cnf_print cnf :: Event.glb_log_init 0 ::
          ((allocate_resources cnf cnf env env.ctrl_fifo_init 0 env.listen_sock_init).trace ++
            Event.glb_signal_set_handler ::
            ((if cnf.daemonize then [Event.glb_daemon_start] else []) ++
              Event.glb_router_create cnf.n_dst cnf.dst env.glb_router_create ::
              Event.glb_pool_create cnf.n_threads env.glb_router_create env.glb_pool_create ::
              Event.glb_listener_create env.glb_router_create env.glb_pool_create
                (allocate_resources cnf cnf env env.ctrl_fifo_init 0
                  env.listen_sock_init).listen_sock env.glb_listener_create ::
              Event.glb_socket_addr_get_port cnf.inc_addr
                (env.glb_socket_addr_get_port cnf.inc_addr % 2 ^ 16) ::
              Event.glb_ctrl_create env.glb_router_create env.glb_pool_create
                (env.glb_socket_addr_get_port cnf.inc_addr % 2 ^ 16)
                (allocate_resources cnf cnf env env.ctrl_fifo_init 0
                  env.listen_sock_init).ctrl_fifo
                (allocate_resources cnf cnf env env.ctrl_fifo_init 0
                  env.listen_sock_init).ctrl_sock env.glb_ctrl_create ::
              tail)) ∧
      ∀ r p port f s c, Event.glb_ctrl_create r p port f s c ∉ tail := by
  have hd : cnf.daemonize = true ∨ cnf.daemonize = false := by
    cases cnf.daemonize <;> simp
  by_cases hct : env.glb_ctrl_create = 0
  · rcases hd with hd | hd <;>
    simp only [main, failure, hc, hp, hl, ha, hd, hr, hpl, hli, hct, Bool.not_true, Bool.not_false,
      Bool.false_eq_true, if_false, ne_eq, not_true_eq_false, not_false_eq_true, if_true,
      List.append_assoc, List.cons_append, List.nil_append] <;>
    refine ⟨_, rfl, fun r p port f s c h => ?_⟩ <;>
    simp at h <;>
    (try casesm* _ ∨ _) <;>
    first
    | (have hthis := idle_loop_isReport _ _ _ _ _ _ _ (by assumption)
       simp [Event.isReport] at hthis; done)
    | (have hthis := free_resources_step _ _ _ _ _ (by assumption)
       simp [Event.step] at hthis; done)
  cases hl2 : (idle_loop cnf env env.glb_router_create env.glb_pool_create fuel 0).2 <;>
  rcases hd with hd | hd <;>
  simp only [main, failure, hc, hp, hl, ha, hd, hr, hpl, hli, hct, hl2, Bool.not_true, Bool.not_false,
    Bool.false_eq_true, if_false, ne_eq, not_true_eq_false, not_false_eq_true, if_true,
    List.append_assoc, List.cons_append, List.nil_append] <;>
  refine ⟨_, rfl, fun r p port f s c h => ?_⟩ <;>
  simp at h <;>
  (try casesm* _ ∨ _) <;>
  first
  | (have hthis := idle_loop_isReport _ _ _ _ _ _ _ (by assumption)
     simp [Event.isReport] at hthis; done)
  | (have hthis := free_resources_step _ _ _ _ _ (by assumption)
     simp [Event.step] at hthis; done)

/-- Shape of a run of `main` in which `allocate_resources` succeeds and a
component constructor returns `NULL`: the run ends with `EXIT_FAILURE`, and its
trace is a prefix without any `close` or `remove`, which holds open exactly
the descriptors obtained and has created the FIFO, followed by the calls of
`free_resources` on those descriptors. -/
theorem main_component_failure_run (argc : Int) (argv : List String) (env : Env)
    (fuel : Nat) (cnf : glb_cnf_t)
    (hc : env.glb_cnf_init = true) (hp : env.glb_cmd_parse = some cnf)
    (hl : env.glb_log_init = 0)
    (ha : (allocate_resources cnf cnf env env.ctrl_fifo_init 0 env.listen_sock_init).ret = 0)
    (hnull : env.glb_router_create = 0 ∨ env.glb_pool_create = 0 ∨
      env.glb_listener_create = 0 ∨ env.glb_ctrl_create = 0) :
    ∃ pre, main argc argv env fuel =
        { trace := pre ++ free_resources cnf env.sys_open
            (if cnf.ctrl_set then env.ctrl_socket else 0) env.listen_socket
          status := some EXIT_FAILURE } ∧
      (∀ e ∈ pre, e.isClose = false ∧ e.isRemove = false) ∧
      open_fds pre = env.listen_socket ::
        ((if cnf.ctrl_set then [env.ctrl_socket] else []) ++ [env.sys_open]) ∧
      fifo_paths pre = [cnf.fifo_name] := by
  obtain ⟨hiff, -, hout⟩ := allocate_resources_ok cnf cnf env env.ctrl_fifo_init 0
    env.listen_sock_init
  obtain ⟨hfifo, hlsock, hcsock, htrace, -⟩ := hout ha
  obtain ⟨hmk, hopen, hctl, hlis⟩ := hiff.mp ha
  have hd : cnf.daemonize = true ∨ cnf.daemonize = false := by
    cases cnf.daemonize <;> simp
  have hs : cnf.ctrl_set = true ∨ cnf.ctrl_set = false := by
    cases cnf.ctrl_set <;> simp
  by_cases hr : env.glb_router_create = 0
  · simp only [main, failure, hc, hp, hl, ha, hr, Bool.not_true, Bool.false_eq_true,
      if_false, ne_eq, not_true_eq_false, if_true, hfifo, hlsock, hcsock]
    refine ⟨_, rfl, ?_, ?_, ?_⟩ <;> rw [htrace] <;>
      rcases hd with hd | hd <;> rcases hs with hs | hs <;>
      simp [hd, hs, open_fds, fifo_paths, track_fd, track_path, Event.isClose, Event.isRemove,
        hopen, hlis, hctl]
  by_cases hpl : env.glb_pool_create = 0
  · simp only [main, failure, hc, hp, hl, ha, hr, hpl, Bool.not_true, Bool.false_eq_true,
      if_false, ne_eq, not_true_eq_false, if_true, hfifo, hlsock, hcsock]
    refine ⟨_, rfl, ?_, ?_, ?_⟩ <;> rw [htrace] <;>
      rcases hd with hd | hd <;> rcases hs with hs | hs <;>
      simp [hd, hs, open_fds, fifo_paths, track_fd, track_path, Event.isClose, Event.isRemove,
        hopen, hlis, hctl]
  by_cases hli : env.glb_listener_create = 0
  · simp only [main, failure, hc, hp, hl, ha, hr, hpl, hli, Bool.not_true, Bool.false_eq_true,
      if_false, ne_eq, not_true_eq_false, if_true, hfifo, hlsock, hcsock]
    refine ⟨_, rfl, ?_, ?_, ?_⟩ <;> rw [htrace] <;>
      rcases hd with hd | hd <;> rcases hs with hs | hs <;>
      simp [hd, hs, open_fds, fifo_paths, track_fd, track_path, Event.isClose, Event.isRemove,
        hopen, hlis, hctl]
  by_cases hct : env.glb_ctrl_create = 0
  · simp only [main, failure, hc, hp, hl, ha, hr, hpl, hli, hct, Bool.not_true, Bool.false_eq_true,
      if_false, ne_eq, not_true_eq_false, if_true, hfifo, hlsock, hcsock]
    refine ⟨_, rfl, ?_, ?_, ?_⟩ <;> rw [htrace] <;>
      rcases hd with hd | hd <;> rcases hs with hs | hs <;>
      simp [hd, hs, open_fds, fifo_paths, track_fd, track_path, Event.isClose, Event.isRemove,
        hopen, hlis, hctl]
  exact absurd hnull (by simp [hr, hpl, hli, hct])

/-- What `main` releases when a component constructor fails after a successful
`allocate_resources`: it exits with `EXIT_FAILURE` and its last calls are those
of `free_resources` on the descriptors obtained.  A non-zero listening socket
is closed, a non-zero control socket is closed if one was created, and for a
non-zero FIFO descriptor the descriptor is closed and the FIFO path removed;
with all descriptors non-zero nothing acquired is left open and no FIFO path
is left behind.  No `close (0)` is ever made, and with a FIFO descriptor of 0
no `remove` is made. -/
theorem main_component_failure_releases (argc : Int) (argv : List String) (env : Env)
    (fuel : Nat) (cnf : glb_cnf_t)
    (hc : env.glb_cnf_init = true) (hp : env.glb_cmd_parse = some cnf)
    (hl : env.glb_log_init = 0)
    (ha : (allocate_resources cnf cnf env env.ctrl_fifo_init 0 env.listen_sock_init).ret = 0)
    (hnull : env.glb_router_create = 0 ∨ env.glb_pool_create = 0 ∨
      env.glb_listener_create = 0 ∨ env.glb_ctrl_create = 0) :
    (main argc argv env fuel).status = some EXIT_FAILURE ∧ EXIT_FAILURE ≠ 0 ∧
    (∃ pre, (main argc argv env fuel).trace =
      pre ++ free_resources cnf env.sys_open (if cnf.ctrl_set then env.ctrl_socket else 0)
        env.listen_socket ∧ ∀ e ∈ pre, e.isClose = false ∧ e.isRemove = false) ∧
    (env.listen_socket ≠ 0 → Event.close env.listen_socket ∈ (main argc argv env fuel).trace) ∧
    (cnf.ctrl_set = true → env.ctrl_socket ≠ 0 →
      Event.close env.ctrl_socket ∈ (main argc argv env fuel).trace) ∧
    (env.sys_open ≠ 0 →
      Event.close env.sys_open ∈ (main argc argv env fuel).trace ∧
      Event.remove cnf.fifo_name ∈ (main argc argv env fuel).trace) ∧
    (env.listen_socket ≠ 0 → (cnf.ctrl_set = true → env.ctrl_socket ≠ 0) →
      env.sys_open ≠ 0 →
      open_fds (main argc argv env fuel).trace = [] ∧
      fifo_paths (main argc argv env fuel).trace = []) ∧
    Event.close 0 ∉ (main argc argv env fuel).trace ∧
    (env.sys_open = 0 → ∀ p, Event.remove p ∉ (main argc argv env fuel).trace) := by
  obtain ⟨pre, hrun, hpre, hfds, hpaths⟩ :=
    main_component_failure_run argc argv env fuel cnf hc hp hl ha hnull
  have hnc : ∀ fd, Event.close fd ∉ pre := fun fd h => by simpa [Event.isClose] using hpre _ h
  have hnr : ∀ q, Event.remove q ∉ pre := fun q h => by simpa [Event.isRemove] using hpre _ h
  rw [hrun]
  refine ⟨rfl, by decide, ⟨pre, rfl, hpre⟩, ?_, ?_, ?_, ?_, ?_, ?_⟩
  · intro h
    simp [free_resources, h]
  · intro hs h
    simp [free_resources, hs, h]
  · intro h
    simp [free_resources, h]
  · intro h1 h2 h3
    simp only [open_fds, fifo_paths, List.foldl_append] at hfds hpaths ⊢
    rw [hfds, hpaths]
    cases hs : cnf.ctrl_set
    · simp [free_resources, h1, h3, track_fd, track_path, List.filter_cons]
    · have h2' := h2 hs
      simp [free_resources, h1, h2', h3, track_fd, track_path, List.filter_cons]
      split_ifs <;> simp_all
  · simp only [List.mem_append, hnc, false_or]
    unfold free_resources
    by_cases h1 : env.listen_socket = 0 <;> by_cases h3 : env.sys_open = 0 <;>
      cases hs : cnf.ctrl_set <;>
      by_cases h2 : env.ctrl_socket = 0 <;>
      simp [h1, h2, h3] <;> omega
  · intro h p
    simp [hnr, free_resources, h]

/-- An instance of the preceding lemma: descriptors 3 and 5, and
`glb_router_create` fails. -/
theorem main_component_failure_releases_example :
    env_router_fails.glb_router_create = 0 ∧
    (main 1 ["glbd"] env_router_fails 9).status = some EXIT_FAILURE ∧
    Event.close 5 ∈ (main 1 ["glbd"] env_router_fails 9).trace ∧
    Event.close 3 ∈ (main 1 ["glbd"] env_router_fails 9).trace ∧
    Event.remove "/tmp/glbd.fifo" ∈ (main 1 ["glbd"] env_router_fails 9).trace ∧
    open_fds (main 1 ["glbd"] env_router_fails 9).trace = [] ∧
    fifo_paths (main 1 ["glbd"] env_router_fails 9).trace = [] :=
  have h := main_component_failure_releases 1 ["glbd"] env_router_fails 9 cnf_plain rfl rfl rfl
    (by decide) (Or.inl rfl)
  ⟨rfl, h.1, h.2.2.2.1 (by decide), (h.2.2.2.2.2.1 (by decide)).1,
    (h.2.2.2.2.2.1 (by decide)).2,
    (h.2.2.2.2.2.2.1 (by decide) (by decide) (by decide)).1,
    (h.2.2.2.2.2.2.1 (by decide) (by decide) (by decide)).2⟩

/-! ## The properties of the specification -/

/-- C1. If `mkfifo` fails with `EEXIST`, `allocate_resources` returns 1 having
called only `mkfifo` and the logger (no `open`, no `glb_socket_create`, no
`close`, no `remove`) and leaves its output parameters untouched; `main` then
exits with the non-zero status `EXIT_FAILURE` without having called any of
`glb_router_create`, `glb_pool_create`, `glb_listener_create`,
`glb_ctrl_create`, nor `glb_socket_create`, `close` or `remove`. -/
theorem fifo_exists_restart_safety (glb_cnf conf : glb_cnf_t) (env : Env)
    (ctrl_fifo ctrl_sock listen_sock : Int) (argc : Int) (argv : List String) (fuel : Nat)
    (hfail : env.mkfifo ≠ 0) (herr : env.errno = EEXIST) :
    allocate_resources glb_cnf conf env ctrl_fifo ctrl_sock listen_sock =
      { ctrl_fifo := ctrl_fifo, ctrl_sock := ctrl_sock, listen_sock := listen_sock
        trace := [Event.mkfifo conf.fifo_name (S_IRUSR ||| S_IWUSR) env.mkfifo,
                  Event.glb_log_error (Msg.fifo_exists conf.fifo_name)]
        ret := 1 } ∧
    (∀ e ∈ (allocate_resources glb_cnf conf env ctrl_fifo ctrl_sock listen_sock).trace,
      e.isOpen = false ∧ e.isSocketCreate = false ∧ e.isClose = false ∧
        e.isRemove = false) ∧
    (main argc argv env fuel).status = some EXIT_FAILURE ∧ EXIT_FAILURE ≠ 0 ∧
    (∀ e ∈ (main argc argv env fuel).trace,
      e.isCreate = false ∧ e.isOpen = false ∧ e.isSocketCreate = false ∧
        e.isClose = false ∧ e.isRemove = false) := by
  have halloc : ∀ g c f s l, allocate_resources g c env f s l =
      { ctrl_fifo := f, ctrl_sock := s, listen_sock := l
        trace := [Event.mkfifo c.fifo_name (S_IRUSR ||| S_IWUSR) env.mkfifo,
                  Event.glb_log_error (Msg.fifo_exists c.fifo_name)]
        ret := 1 } := by
    intro g c f s l
    simp [allocate_resources, hfail, herr]
  refine ⟨halloc _ _ _ _ _, ?_, ?_⟩
  · rw [halloc]
    simp [Event.isOpen, Event.isSocketCreate, Event.isClose, Event.isRemove]
  · unfold main
    by_cases hc : env.glb_cnf_init = true
    · cases hp : env.glb_cmd_parse with
      | none =>
        simp [hc, EXIT_FAILURE, Event.isCreate, Event.isOpen, Event.isSocketCreate,
          Event.isClose, Event.isRemove]
      | some cnf =>
        by_cases hl : env.glb_log_init = 0 <;>
          simp [hc, hl, halloc, EXIT_FAILURE, Event.isCreate, Event.isOpen,
            Event.isSocketCreate, Event.isClose, Event.isRemove]
    · simp [hc, EXIT_FAILURE, Event.isCreate, Event.isOpen, Event.isSocketCreate,
        Event.isClose, Event.isRemove]

/-- Witness for C1: the FIFO of `cnf_plain` already exists. -/
theorem fifo_exists_restart_safety_witness :
    allocate_resources cnf_plain cnf_plain env_fifo_exists 77 0 88 =
      { ctrl_fifo := 77, ctrl_sock := 0, listen_sock := 88
        trace := [Event.mkfifo "/tmp/glbd.fifo" 384 (-1),
                  Event.glb_log_error (Msg.fifo_exists "/tmp/glbd.fifo")]
        ret := 1 } ∧
    (main 1 ["glbd"] env_fifo_exists 9).status = some 1 :=
  have h := fifo_exists_restart_safety cnf_plain cnf_plain env_fifo_exists 77 0 88 1 ["glbd"] 9
    (by decide) (by decide)
  ⟨h.1, h.2.2.1⟩

/-- C2. `main` finishes with status 0 exactly when no startup step fails
(configuration init, argument parsing, logger init, `allocate_resources`,
router, pool, listener, control) and the idle loop reads the termination flag
set; if any startup step fails, `main` finishes with `EXIT_FAILURE`, which is
not 0, whatever the fuel; and when step `k` fails no call of a later step (nor
anything that follows startup) has been made. -/
theorem main_exit_codes (argc : Int) (argv : List String) (env : Env) (fuel : Nat) :
    ((main argc argv env fuel).status = some 0 ↔
      (∀ k, step_fails env k = false) ∧
        ∃ n, n < fuel ∧ env.glb_terminate n = true ∧
          ∀ m, m < n → env.glb_terminate m = false) ∧
    ((∃ k, step_fails env k = true) → (main argc argv env fuel).status = some EXIT_FAILURE) ∧
    EXIT_FAILURE ≠ 0 ∧
    (∀ k, step_fails env k = true → ∀ e ∈ (main argc argv env fuel).trace, e.step ≤ k) := by
  rcases main_run_cases argc argv env fuel with
    ⟨j, hj, hfirst, hst, htr, -⟩ | ⟨hok, cnf, hc, hp, hl, ha, hr, hpl, hli, hct⟩
  · exact exit_codes_of_failure env fuel _ j hst hj hfirst htr
  · have hst := congrArg Run.status
      (main_started argc argv env fuel cnf hc hp hl ha hr hpl hli hct).1
    simp only [] at hst
    have hleft := idle_loop_left_iff cnf env env.glb_router_create env.glb_pool_create fuel
    refine ⟨?_, ?_, by decide, ?_⟩
    · rw [hst]
      constructor
      · intro h
        refine ⟨hok, hleft.mp ?_⟩
        by_contra hnot
        simp [hnot] at h
      · intro h
        simp [hleft.mpr h.2]
    · rintro ⟨k, hk⟩
      simp [hok k] at hk
    · intro k hk
      simp [hok k] at hk

/-- C3. Whenever `allocate_resources` fails after the FIFO was created (the
`open` fails, the control socket creation fails, or the listening socket
creation fails), it returns 1, every descriptor it obtained has been closed
(no descriptor acquired during the call is left open), and the FIFO path has
been removed, the `remove` being the last call made.  `conf` names the same
FIFO as the global configuration, as at the call in `main`. -/
theorem allocate_resources_failure_releases (glb_cnf conf : glb_cnf_t) (env : Env)
    (ctrl_fifo ctrl_sock listen_sock : Int)
    (hcnf : conf.fifo_name = glb_cnf.fifo_name)
    (hfifo : env.mkfifo = 0)
    (hfail : env.sys_open < 0 ∨ (conf.ctrl_set = true ∧ env.ctrl_socket < 0) ∨
      env.listen_socket < 0) :
    (allocate_resources glb_cnf conf env ctrl_fifo ctrl_sock listen_sock).ret = 1 ∧
    open_fds (allocate_resources glb_cnf conf env ctrl_fifo ctrl_sock listen_sock).trace
      = [] ∧
    fifo_paths (allocate_resources glb_cnf conf env ctrl_fifo ctrl_sock listen_sock).trace
      = [] ∧
    (0 ≤ env.sys_open → Event.close env.sys_open ∈
      (allocate_resources glb_cnf conf env ctrl_fifo ctrl_sock listen_sock).trace) ∧
    (0 ≤ env.sys_open → conf.ctrl_set = true → 0 ≤ env.ctrl_socket →
      Event.close env.ctrl_socket ∈
        (allocate_resources glb_cnf conf env ctrl_fifo ctrl_sock listen_sock).trace) ∧
    (allocate_resources glb_cnf conf env ctrl_fifo ctrl_sock listen_sock).trace.getLast?
      = some (Event.remove conf.fifo_name) := by
  unfold allocate_resources allocate_listen cleanup3 cleanup2 cleanup1 open_fds fifo_paths
  by_cases h2 : env.sys_open < 0 <;> by_cases h3 : conf.ctrl_set = true <;>
    by_cases h4 : env.ctrl_socket < 0 <;> by_cases h5 : env.listen_socket < 0 <;>
    simp [hfifo, hcnf, h2, h3, h4, h5, track_fd, track_path, not_lt.mp, not_le.mpr,
      List.filter_cons]
  all_goals tauto

/-- Witness for C3: with a control address configured, the FIFO is opened as
descriptor 3, the control socket as 4, and the listening socket cannot be
created. -/
theorem allocate_resources_failure_releases_witness :
    cnf_ctrl.fifo_name = cnf_ctrl.fifo_name ∧ env_listen_fails.mkfifo = 0 ∧
    env_listen_fails.listen_socket < 0 ∧
    (allocate_resources cnf_ctrl cnf_ctrl env_listen_fails 77 0 88).ret = 1 ∧
    open_fds (allocate_resources cnf_ctrl cnf_ctrl env_listen_fails 77 0 88).trace = [] ∧
    fifo_paths (allocate_resources cnf_ctrl cnf_ctrl env_listen_fails 77 0 88).trace = [] ∧
    Event.close 3 ∈ (allocate_resources cnf_ctrl cnf_ctrl env_listen_fails 77 0 88).trace ∧
    Event.close 4 ∈ (allocate_resources cnf_ctrl cnf_ctrl env_listen_fails 77 0 88).trace :=
  have h := allocate_resources_failure_releases cnf_ctrl cnf_ctrl env_listen_fails 77 0 88
    rfl rfl (Or.inr (Or.inr (by decide)))
  ⟨rfl, rfl, by decide, h.1, h.2.1, h.2.2.1, h.2.2.2.1 (by decide),
    h.2.2.2.2.1 (by decide) rfl (by decide)⟩

/-- C4, at the failing input.  `allocate_resources` succeeds with the FIFO
opened as descriptor 0 (it accepts any descriptor that is not negative) and
the listening socket as 5, `glb_router_create` returns `NULL`, and `main` exits
with `EXIT_FAILURE` having called `free_resources (0, 0, 5)`, which closes 5
only: descriptor 0 is still open and the FIFO is still on disk.  On the
sibling path inside `allocate_resources`, with the same descriptor 0 and a
control socket that cannot be created, label `cleanup2` does close descriptor
0 and remove the FIFO. -/
theorem component_failure_leaves_fifo_zero :
    (allocate_resources cnf_plain cnf_plain env_fifo_zero 77 0 88).ret = 0 ∧
    (allocate_resources cnf_plain cnf_plain env_fifo_zero 77 0 88).ctrl_fifo = 0 ∧
    (allocate_resources cnf_plain cnf_plain env_fifo_zero 77 0 88).listen_sock = 5 ∧
    env_fifo_zero.glb_router_create = 0 ∧
    (main 1 ["glbd"] env_fifo_zero 9).status = some EXIT_FAILURE ∧
    Event.sys_open "/tmp/glbd.fifo" O_RDWR 0 ∈ (main 1 ["glbd"] env_fifo_zero 9).trace ∧
    free_resources cnf_plain 0 0 5 = [Event.close 5] ∧
    (main 1 ["glbd"] env_fifo_zero 9).trace.getLast? = some (Event.close 5) ∧
    Event.close 0 ∉ (main 1 ["glbd"] env_fifo_zero 9).trace ∧
    Event.remove "/tmp/glbd.fifo" ∉ (main 1 ["glbd"] env_fifo_zero 9).trace ∧
    open_fds (main 1 ["glbd"] env_fifo_zero 9).trace = [0] ∧
    fifo_paths (main 1 ["glbd"] env_fifo_zero 9).trace = ["/tmp/glbd.fifo"] ∧
    (allocate_resources cnf_ctrl cnf_ctrl env_fifo_zero_ctrl_fails 77 0 88).trace
      = [Event.mkfifo "/tmp/glbd.fifo" 384 0,
         Event.sys_open "/tmp/glbd.fifo" 2 0,
         Event.glb_socket_create ⟨2⟩ glb_sock_flags.GLB_SOCK_DEFER_ACCEPT (-1),
         Event.close 0,
         Event.remove "/tmp/glbd.fifo"] := by
  decide

/-- C5. In every run of `main`, a call of `glb_daemon_start` or of a component
constructor comes only after `allocate_resources` has returned 0: the calls
before it start with the five calls leading to `allocate_resources` and the
calls of `allocate_resources` itself.  `glb_listener_create` receives the
listening socket that `allocate_resources` produced, `glb_ctrl_create` the
FIFO descriptor and the control socket, the latter being 0 when no control
address is configured. -/
theorem allocate_before_construct (argc : Int) (argv : List String) (env : Env)
    (fuel : Nat) :
    (∀ pre e post, (main argc argv env fuel).trace = pre ++ e :: post →
      (e = Event.glb_daemon_start ∨ e.isCreate = true) →
      ∃ cnf mid, env.glb_cmd_parse = some cnf ∧
        (allocate_resources cnf cnf env env.ctrl_fifo_init 0 env.listen_sock_init).ret = 0 ∧
        pre = Event.glb_limits_init :: Event.glb_cnf_init true ::
          Event.glb_cmd_parse argc argv :: Event.glb_cnf_print cnf :: Event.glb_log_init 0 ::
          ((allocate_resources cnf cnf env env.ctrl_fifo_init 0 env.listen_sock_init).trace
            ++ mid)) ∧
    (∀ r p s l, Event.glb_listener_create r p s l ∈ (main argc argv env fuel).trace →
      ∃ cnf, env.glb_cmd_parse = some cnf ∧
        (allocate_resources cnf cnf env env.ctrl_fifo_init 0 env.listen_sock_init).ret = 0 ∧
        s = (allocate_resources cnf cnf env env.ctrl_fifo_init 0
          env.listen_sock_init).listen_sock ∧
        s = env.listen_socket) ∧
    (∀ r p port f s c,
      Event.glb_ctrl_create r p port f s c ∈ (main argc argv env fuel).trace →
      ∃ cnf, env.glb_cmd_parse = some cnf ∧
        (allocate_resources cnf cnf env env.ctrl_fifo_init 0 env.listen_sock_init).ret = 0 ∧
        f = (allocate_resources cnf cnf env env.ctrl_fifo_init 0
          env.listen_sock_init).ctrl_fifo ∧
        f = env.sys_open ∧
        s = (allocate_resources cnf cnf env env.ctrl_fifo_init 0
          env.listen_sock_init).ctrl_sock ∧
        s = (if cnf.ctrl_set then env.ctrl_socket else 0)) := by
  rcases main_alloc_cases argc argv env fuel with hearly | ⟨cnf, hc, hp, hl, ha⟩
  · refine ⟨fun pre e post h he => ?_, fun r p s l h => ?_, fun r p port f s c h => ?_⟩
    · have h4 := hearly e (by simp [h])
      have h5 := five_le_step_of_isCreate e he
      omega
    · simpa [Event.step] using hearly _ h
    · simpa [Event.step] using hearly _ h
  · obtain ⟨tail, htr, hlis, hctl⟩ := main_after_alloc argc argv env fuel cnf hc hp hl ha
    obtain ⟨-, -, hout⟩ := allocate_resources_ok cnf cnf env env.ctrl_fifo_init 0
      env.listen_sock_init
    obtain ⟨hfifo, hlsock, hcsock, -, -⟩ := hout ha
    have hstep := allocate_resources_step cnf cnf env env.ctrl_fifo_init 0 env.listen_sock_init
    refine ⟨fun pre e post h he => ?_, fun r p s l h => ?_, fun r p port f s c h => ?_⟩
    · have h5 := five_le_step_of_isCreate e he
      clear he
      rw [htr] at h
      have hnot : e ∉ Event.glb_limits_init :: Event.glb_cnf_init true ::
          Event.glb_cmd_parse argc argv :: Event.glb_cnf_print cnf :: Event.glb_log_init 0 ::
          (allocate_resources cnf cnf env env.ctrl_fifo_init 0 env.listen_sock_init).trace := by
        intro hmem
        simp only [List.mem_cons] at hmem
        casesm* _ ∨ _ <;>
          first
          | (subst_vars; simp [Event.step] at h5; done)
          | (have hthis := hstep e (by assumption); omega)
      obtain ⟨mid, hmid⟩ := prefix_before_of_not_mem _ tail pre post e hnot (by simpa using h)
      exact ⟨cnf, mid, hp, ha, by simpa using hmid⟩
    · rw [htr] at h
      simp only [List.mem_cons, List.mem_append] at h
      have hs : s = (allocate_resources cnf cnf env env.ctrl_fifo_init 0
          env.listen_sock_init).listen_sock := by
        casesm* _ ∨ _ <;>
          first
          | exact hlis _ _ _ _ (by assumption)
          | (have hthis := hstep _ (by assumption); simp [Event.step] at hthis; done)
          | (simp at *; done)
      exact ⟨cnf, hp, ha, hs, hs.trans hlsock⟩
    · rw [htr] at h
      simp only [List.mem_cons, List.mem_append] at h
      have hs : f = (allocate_resources cnf cnf env env.ctrl_fifo_init 0
            env.listen_sock_init).ctrl_fifo ∧
          s = (allocate_resources cnf cnf env env.ctrl_fifo_init 0
            env.listen_sock_init).ctrl_sock := by
        casesm* _ ∨ _ <;>
          first
          | exact hctl _ _ _ _ _ _ (by assumption)
          | (have hthis := hstep _ (by assumption); simp [Event.step] at hthis; done)
          | (simp at *; done)
      exact ⟨cnf, hp, ha, hs.1, hs.1.trans hfifo, hs.2, hs.2.trans hcsock⟩

/-- C6. In every run of `main`, a call of `glb_ctrl_create` is passed the
router and pool handles returned, non-null, by `glb_router_create` and
`glb_pool_create`, and those calls and a `glb_listener_create` that returned a
non-null handle come before it.  When `main` ends with status 0,
`glb_ctrl_destroy` is called on the handle that `glb_ctrl_create` returned,
after the idle loop and before any `close` or `remove`: what follows it is the
optional log line and the calls of `free_resources`. -/
theorem ctrl_lifecycle_ordering (argc : Int) (argv : List String) (env : Env) (fuel : Nat) :
    (∀ pre post r p port f s c,
      (main argc argv env fuel).trace = pre ++ Event.glb_ctrl_create r p port f s c :: post →
      r = env.glb_router_create ∧ p = env.glb_pool_create ∧ r ≠ 0 ∧ p ≠ 0 ∧
      (∃ n dst, Event.glb_router_create n dst r ∈ pre) ∧
      (∃ n, Event.glb_pool_create n r p ∈ pre) ∧
      (∃ sock l, l ≠ 0 ∧ Event.glb_listener_create r p sock l ∈ pre)) ∧
    ((main argc argv env fuel).status = some 0 →
      ∃ cnf pre post, env.glb_cmd_parse = some cnf ∧
        (main argc argv env fuel).trace =
          pre ++ Event.glb_ctrl_destroy env.glb_ctrl_create :: post ∧
        env.glb_ctrl_create ≠ 0 ∧
        (∃ r p port f s, Event.glb_ctrl_create r p port f s env.glb_ctrl_create ∈ pre) ∧
        (∀ e ∈ pre, e.isClose = false ∧ e.isRemove = false ∧
          ∀ c, e ≠ Event.glb_ctrl_destroy c) ∧
        post = (if cnf.daemonize then [Event.glb_log_info Msg.exit] else []) ++
          free_resources cnf env.sys_open (if cnf.ctrl_set then env.ctrl_socket else 0)
            env.listen_socket) := by
  constructor
  · intro pre post r p port f s c h
    have hmem : Event.glb_ctrl_create r p port f s c ∈ (main argc argv env fuel).trace := by
      simp [h]
    have hhyp : ∃ cnf, env.glb_cnf_init = true ∧ env.glb_cmd_parse = some cnf ∧
        env.glb_log_init = 0 ∧
        (allocate_resources cnf cnf env env.ctrl_fifo_init 0 env.listen_sock_init).ret = 0 ∧
        env.glb_router_create ≠ 0 ∧ env.glb_pool_create ≠ 0 ∧
        env.glb_listener_create ≠ 0 := by
      rcases main_run_cases argc argv env fuel with
        ⟨j, -, -, -, htr, hlate⟩ | ⟨-, cnf, hc, hp, hl, ha, hr, hpl, hli, -⟩
      · exact hlate (by simpa [Event.step] using htr _ hmem)
      · exact ⟨cnf, hc, hp, hl, ha, hr, hpl, hli⟩
    obtain ⟨cnf, hc, hp, hl, ha, hr, hpl, hli⟩ := hhyp
    obtain ⟨tail, htr, htail⟩ := main_ctrl_create_split argc argv env fuel cnf hc hp hl ha hr
      hpl hli
    have hstep := allocate_resources_step cnf cnf env env.ctrl_fifo_init 0 env.listen_sock_init
    have hnot : Event.glb_ctrl_create r p port f s c ∉
        Event.glb_limits_init :: Event.glb_cnf_init true :: Event.glb_cmd_parse argc argv ::
          Event.glb_cnf_print cnf :: Event.glb_log_init 0 ::
          ((allocate_resources cnf cnf env env.ctrl_fifo_init 0 env.listen_sock_init).trace ++
            Event.glb_signal_set_handler ::
            ((if cnf.daemonize then [Event.glb_daemon_start] else []) ++
              [Event.glb_router_create cnf.n_dst cnf.dst env.glb_router_create,
               Event.glb_pool_create cnf.n_threads env.glb_router_create env.glb_pool_create,
               Event.glb_listener_create env.glb_router_create env.glb_pool_create
                (allocate_resources cnf cnf env env.ctrl_fifo_init 0
                  env.listen_sock_init).listen_sock env.glb_listener_create,
               Event.glb_socket_addr_get_port cnf.inc_addr
                (env.glb_socket_addr_get_port cnf.inc_addr % 2 ^ 16)])) := by
      intro hm
      simp only [List.mem_cons, List.mem_append, List.mem_singleton] at hm
      casesm* _ ∨ _ <;>
        first
        | (have hthis := hstep _ (by assumption); simp [Event.step] at hthis; done)
        | (split_ifs at * <;> simp at *; done)
    obtain ⟨mid, hmid⟩ := prefix_before_of_not_mem _
      (Event.glb_ctrl_create env.glb_router_create env.glb_pool_create
        (env.glb_socket_addr_get_port cnf.inc_addr % 2 ^ 16)
        (allocate_resources cnf cnf env env.ctrl_fifo_init 0 env.listen_sock_init).ctrl_fifo
        (allocate_resources cnf cnf env env.ctrl_fifo_init 0 env.listen_sock_init).ctrl_sock
        env.glb_ctrl_create :: tail) pre post _ hnot (by rw [← h, htr]; simp)
    have heq : Event.glb_ctrl_create r p port f s c =
        Event.glb_ctrl_create env.glb_router_create env.glb_pool_create
          (env.glb_socket_addr_get_port cnf.inc_addr % 2 ^ 16)
          (allocate_resources cnf cnf env env.ctrl_fifo_init 0 env.listen_sock_init).ctrl_fifo
          (allocate_resources cnf cnf env env.ctrl_fifo_init 0 env.listen_sock_init).ctrl_sock
          env.glb_ctrl_create := by
      rw [htr] at hmem
      simp only [List.mem_cons, List.mem_append] at hmem
      casesm* _ ∨ _ <;>
        first
        | assumption
        | (exfalso; have := hstep _ (by assumption); simp [Event.step] at this; done)
        | (exfalso; exact htail _ _ _ _ _ _ (by assumption))
        | (exfalso; split_ifs at * <;> simp at *; done)
    simp only [Event.glb_ctrl_create.injEq] at heq
    obtain ⟨rfl, rfl, -⟩ := heq
    refine ⟨rfl, rfl, hr, hpl, ⟨cnf.n_dst, cnf.dst, ?_⟩, ⟨cnf.n_threads, ?_⟩,
      ⟨(allocate_resources cnf cnf env env.ctrl_fifo_init 0 env.listen_sock_init).listen_sock,
        env.glb_listener_create, hli, ?_⟩⟩ <;> simp [hmid]
  · intro hst0
    rcases main_run_cases argc argv env fuel with
      ⟨j, -, -, hst, -, -⟩ | ⟨-, cnf, hc, hp, hl, ha, hr, hpl, hli, hct⟩
    · rw [hst] at hst0
      exact absurd (Option.some.inj hst0) (by decide)
    · obtain ⟨hrun, hstart⟩ := main_started argc argv env fuel cnf hc hp hl ha hr hpl hli hct
      obtain ⟨-, -, hout⟩ := allocate_resources_ok cnf cnf env env.ctrl_fifo_init 0
        env.listen_sock_init
      obtain ⟨hfifo, hlsock, hcsock, -, hquiet⟩ := hout ha
      have hleft : (idle_loop cnf env env.glb_router_create env.glb_pool_create fuel 0).2
          = true := by
        by_contra hnot
        rw [hrun] at hst0
        simp [hnot] at hst0
      refine ⟨cnf, (main argc argv env 0).trace ++
        (idle_loop cnf env env.glb_router_create env.glb_pool_create fuel 0).1, _, hp, ?_, hct,
        ?_, ?_, rfl⟩
      · rw [hrun]
        simp [hleft, hfifo, hlsock, hcsock]
      · exact ⟨env.glb_router_create, env.glb_pool_create,
          env.glb_socket_addr_get_port cnf.inc_addr % 2 ^ 16,
          (allocate_resources cnf cnf env env.ctrl_fifo_init 0 env.listen_sock_init).ctrl_fifo,
          (allocate_resources cnf cnf env env.ctrl_fifo_init 0 env.listen_sock_init).ctrl_sock,
          List.mem_append_left _ (by rw [hstart]; simp)⟩
      · intro e he
        have hstep := allocate_resources_step cnf cnf env env.ctrl_fifo_init 0
          env.listen_sock_init
        rcases List.mem_append.mp he with he | he
        · rw [hstart] at he
          cases hd : cnf.daemonize <;>
            simp only [hd, List.mem_cons, List.mem_append, if_true, if_false,
              Bool.false_eq_true, List.not_mem_nil, false_or, or_false] at he <;>
            casesm* _ ∨ _ <;>
            first
            | (subst_vars; simp [Event.isClose, Event.isRemove]; done)
            | (have h1 := hquiet _ (by assumption)
               have h2 := hstep _ (by assumption)
               exact ⟨h1.1, h1.2, fun c hc => by subst hc; simp [Event.step] at h2⟩)
        · exact not_teardown_of_isReport e (idle_loop_isReport _ _ _ _ _ _ e he)

/-- C7. When startup succeeds, the trace of `main` is the startup calls, then
`n` iterations of the idle loop, one per reading of the termination flag as
clear, then what follows the loop.  Iteration `i` is, with the daemonize flag
off, exactly `glb_router_print_info` on the router, `puts` of the text it
wrote, `glb_pool_print_info` on the pool, `puts` of the text it wrote and
`sleep (5)`, in that order; with the flag on it is `sleep (5)` alone.  No
call of that kind occurs outside the iterations. -/
theorem periodic_report (argc : Int) (argv : List String) (env : Env) (fuel : Nat)
    (cnf : glb_cnf_t) (hc : env.glb_cnf_init = true) (hp : env.glb_cmd_parse = some cnf)
    (hl : env.glb_log_init = 0)
    (ha : (allocate_resources cnf cnf env env.ctrl_fifo_init 0 env.listen_sock_init).ret = 0)
    (hr : env.glb_router_create ≠ 0) (hpl : env.glb_pool_create ≠ 0)
    (hli : env.glb_listener_create ≠ 0) (hct : env.glb_ctrl_create ≠ 0) :
    ∃ n post, n ≤ fuel ∧ (∀ m, m < n → env.glb_terminate m = false) ∧
      (main argc argv env fuel).trace =
        (main argc argv env 0).trace ++
        (List.range n).flatMap (fun i =>
          if cnf.daemonize then [Event.sleep 5]
          else
            [Event.glb_router_print_info env.glb_router_create BUFSIZ,
             Event.puts (env.glb_router_print_info i),
             Event.glb_pool_print_info env.glb_pool_create BUFSIZ,
             Event.puts (env.glb_pool_print_info i),
             Event.sleep 5]) ++
        post ∧
      (∀ e ∈ (main argc argv env 0).trace ++ post, e.isReport = false) ∧
      ((main argc argv env fuel).status = none → n = fuel ∧ post = []) ∧
      ((main argc argv env fuel).status = some 0 → n < fuel ∧ env.glb_terminate n = true) ∧
      ((main argc argv env fuel).status = none ∨ (main argc argv env fuel).status = some 0) := by
  obtain ⟨hrun, hstart⟩ := main_started argc argv env fuel cnf hc hp hl ha hr hpl hli hct
  obtain ⟨n, hn, hclear, htrace, hleft, hstay⟩ :=
    idle_loop_spec cnf env env.glb_router_create env.glb_pool_create fuel 0
  simp only [Nat.zero_add] at hclear htrace hleft
  have hstep := allocate_resources_step cnf cnf env env.ctrl_fifo_init 0 env.listen_sock_init
  have hbody : (fun k => loop_body cnf env env.glb_router_create env.glb_pool_create k) =
      (fun i =>
        if cnf.daemonize then [Event.sleep 5]
        else
          [Event.glb_router_print_info env.glb_router_create BUFSIZ,
           Event.puts (env.glb_router_print_info i),
           Event.glb_pool_print_info env.glb_pool_create BUFSIZ,
           Event.puts (env.glb_pool_print_info i),
           Event.sleep 5]) := by
    funext i
    cases hd : cnf.daemonize <;> simp [loop_body, hd]
  have hnot : ∀ e : Event, e.step ≠ 9 → e.isReport = false := by
    intro e h9
    by_contra hrep
    exact h9 (step_of_isReport e (by simpa using hrep))
  refine ⟨n,
    (if (idle_loop cnf env env.glb_router_create env.glb_pool_create fuel 0).2 then
      Event.glb_ctrl_destroy env.glb_ctrl_create ::
        ((if cnf.daemonize then [Event.glb_log_info Msg.exit] else []) ++
          free_resources cnf
            (allocate_resources cnf cnf env env.ctrl_fifo_init 0
              env.listen_sock_init).ctrl_fifo
            (allocate_resources cnf cnf env env.ctrl_fifo_init 0
              env.listen_sock_init).ctrl_sock
            (allocate_resources cnf cnf env env.ctrl_fifo_init 0
              env.listen_sock_init).listen_sock)
     else []), hn, hclear, ?_, ?_, ?_, ?_, ?_⟩
  · rw [hrun, htrace, hbody]
  · intro e he
    rcases List.mem_append.mp he with he | he
    · rw [hstart] at he
      cases hd : cnf.daemonize <;>
        simp only [hd, List.mem_cons, List.mem_append, if_true, if_false,
          Bool.false_eq_true, List.not_mem_nil, false_or, or_false] at he <;>
        casesm* _ ∨ _ <;>
        first
        | (subst_vars; simp [Event.isReport]; done)
        | (have h2 := hstep _ (by assumption); exact hnot _ (by omega))
    · cases hl2 : (idle_loop cnf env env.glb_router_create env.glb_pool_create fuel 0).2 <;>
        cases hd : cnf.daemonize <;>
        simp only [hl2, hd, List.mem_cons, List.mem_append, if_true, if_false,
          Bool.false_eq_true, List.not_mem_nil, false_or, or_false] at he <;>
        (try casesm* _ ∨ _) <;>
        first
        | (subst_vars; simp [Event.isReport]; done)
        | (have h2 := free_resources_step _ _ _ _ _ (by assumption); exact hnot _ (by omega))
  · intro hnone
    rw [hrun] at hnone
    cases hl2 : (idle_loop cnf env env.glb_router_create env.glb_pool_create fuel 0).2
    · exact ⟨hstay hl2, by simp⟩
    · simp [hl2] at hnone
  · intro hzero
    rw [hrun] at hzero
    cases hl2 : (idle_loop cnf env env.glb_router_create env.glb_pool_create fuel 0).2
    · simp [hl2] at hzero
    · exact hleft hl2
  · rw [hrun]
    cases (idle_loop cnf env env.glb_router_create env.glb_pool_create fuel 0).2 <;> simp

/-- Witness for C7: every startup step of `env_ok` succeeds and the flag is
read set after two iterations. -/
theorem periodic_report_witness :
    ∃ n post, n ≤ 9 ∧
      (main 1 ["glbd"] env_ok 9).trace =
        (main 1 ["glbd"] env_ok 0).trace ++
        (List.range n).flatMap (fun i =>
          if cnf_plain.daemonize then [Event.sleep 5]
          else
            [Event.glb_router_print_info env_ok.glb_router_create BUFSIZ,
             Event.puts (env_ok.glb_router_print_info i),
             Event.glb_pool_print_info env_ok.glb_pool_create BUFSIZ,
             Event.puts (env_ok.glb_pool_print_info i),
             Event.sleep 5]) ++
        post :=
  have ⟨n, post, h1, _, h3, _⟩ := periodic_report 1 ["glbd"] env_ok 9 cnf_plain rfl rfl rfl
    (by decide) (by decide) (by decide) (by decide) (by decide)
  ⟨n, post, h1, h3⟩

/-- C8. `allocate_resources` returns 0 exactly when `mkfifo` succeeds and
`open`, the control socket creation (attempted only when `ctrl_set`) and the
listening socket creation all give a non-negative descriptor; it returns 0 or
1 and nothing else; when it returns 0 the output parameters hold those
descriptors, the calls made are exactly `mkfifo`, `open`, the optional control
`glb_socket_create` and the listening `glb_socket_create`, nothing has been
closed or removed, and without `ctrl_set` the caller's `ctrl_sock` is left
as it was.  Without `ctrl_set`, on every path, at most one socket is created
(the listening one), and `ctrl_sock` keeps the caller's value unless the call
fails and resets it to 0. -/
theorem allocate_resources_result (glb_cnf conf : glb_cnf_t) (env : Env)
    (ctrl_fifo ctrl_sock listen_sock : Int) :
    ((allocate_resources glb_cnf conf env ctrl_fifo ctrl_sock listen_sock).ret = 0 ↔
        env.mkfifo = 0 ∧ 0 ≤ env.sys_open ∧ (conf.ctrl_set = true → 0 ≤ env.ctrl_socket) ∧
          0 ≤ env.listen_socket) ∧
    ((allocate_resources glb_cnf conf env ctrl_fifo ctrl_sock listen_sock).ret = 0 ∨
      (allocate_resources glb_cnf conf env ctrl_fifo ctrl_sock listen_sock).ret = 1) ∧
    ((allocate_resources glb_cnf conf env ctrl_fifo ctrl_sock listen_sock).ret = 0 →
      (allocate_resources glb_cnf conf env ctrl_fifo ctrl_sock listen_sock).ctrl_fifo
          = env.sys_open ∧
      (allocate_resources glb_cnf conf env ctrl_fifo ctrl_sock listen_sock).listen_sock
          = env.listen_socket ∧
      (allocate_resources glb_cnf conf env ctrl_fifo ctrl_sock listen_sock).ctrl_sock
          = (if conf.ctrl_set then env.ctrl_socket else ctrl_sock) ∧
      (allocate_resources glb_cnf conf env ctrl_fifo ctrl_sock listen_sock).trace
          = [Event.mkfifo conf.fifo_name (S_IRUSR ||| S_IWUSR) 0,
             Event.sys_open conf.fifo_name O_RDWR env.sys_open] ++
            (if conf.ctrl_set then
              [Event.glb_socket_create conf.ctrl_addr glb_sock_flags.GLB_SOCK_DEFER_ACCEPT
                env.ctrl_socket]
             else []) ++
            [Event.glb_socket_create conf.inc_addr glb_sock_flags.GLB_SOCK_DEFER_ACCEPT
              env.listen_socket] ∧
      ∀ e ∈ (allocate_resources glb_cnf conf env ctrl_fifo ctrl_sock listen_sock).trace,
        e.isClose = false ∧ e.isRemove = false) ∧
    (conf.ctrl_set = false →
      ((allocate_resources glb_cnf conf env ctrl_fifo ctrl_sock listen_sock).trace.filter
        (fun e => e.isSocketCreate)).length ≤ 1 ∧
      ((allocate_resources glb_cnf conf env ctrl_fifo ctrl_sock listen_sock).ctrl_sock
          = ctrl_sock ∨
        (allocate_resources glb_cnf conf env ctrl_fifo ctrl_sock listen_sock).ret = 1 ∧
          (allocate_resources glb_cnf conf env ctrl_fifo ctrl_sock listen_sock).ctrl_sock
            = 0)) := by
  unfold allocate_resources allocate_listen cleanup3 cleanup2 cleanup1
  by_cases h1 : env.mkfifo = 0 <;> by_cases h2 : env.sys_open < 0 <;>
    by_cases h3 : conf.ctrl_set = true <;> by_cases h4 : env.ctrl_socket < 0 <;>
    by_cases h5 : env.listen_socket < 0 <;>
    simp [h1, h2, h3, h4, h5, Event.isClose, Event.isRemove, Event.isSocketCreate,
      List.filter_cons, not_lt.mp, not_le.mpr]

/-- C9, at the failing input.  No control address is configured, the FIFO is
opened as descriptor 3 and creating the listening socket fails, the caller's
`ctrl_sock` being 0 as `main` initialises it: `allocate_resources` passes 0 to
`close` although only descriptor 3 was returned to it during the call. -/
theorem allocate_resources_closes_unopened_descriptor :
    (allocate_resources cnf_plain cnf_plain env_listen_fails 77 0 88).trace
      = [Event.mkfifo "/tmp/glbd.fifo" 384 0,
         Event.sys_open "/tmp/glbd.fifo" 2 3,
         Event.glb_socket_create ⟨1⟩ glb_sock_flags.GLB_SOCK_DEFER_ACCEPT (-1),
         Event.close 0,
         Event.close 3,
         Event.remove "/tmp/glbd.fifo"] ∧
    closes_only_opened []
      (allocate_resources cnf_plain cnf_plain env_listen_fails 77 0 88).trace = false := by
  decide

/-- C10. `free_resources` closes the listening socket iff it is non-zero, the
control socket iff it is non-zero, and closes the FIFO descriptor and removes
the configured FIFO path iff the FIFO descriptor is non-zero, in that order
(the calls form a subsequence of close lsock, close ctrl_sock, close
ctrl_fifo, remove), each at most once and nothing else; descriptor 0 is never
closed, and a `remove` only ever follows the close of the FIFO descriptor. -/
theorem free_resources_zero_means_unallocated (glb_cnf : glb_cnf_t)
    (ctrl_fifo ctrl_sock lsock : Int) :
    (Event.close lsock ∈ free_resources glb_cnf ctrl_fifo ctrl_sock lsock ↔ lsock ≠ 0) ∧
    (Event.close ctrl_sock ∈ free_resources glb_cnf ctrl_fifo ctrl_sock lsock ↔
      ctrl_sock ≠ 0) ∧
    (Event.close ctrl_fifo ∈ free_resources glb_cnf ctrl_fifo ctrl_sock lsock ↔
      ctrl_fifo ≠ 0) ∧
    (∀ p, Event.remove p ∈ free_resources glb_cnf ctrl_fifo ctrl_sock lsock ↔
      p = glb_cnf.fifo_name ∧ ctrl_fifo ≠ 0) ∧
    List.Sublist (free_resources glb_cnf ctrl_fifo ctrl_sock lsock)
      [Event.close lsock, Event.close ctrl_sock, Event.close ctrl_fifo,
       Event.remove glb_cnf.fifo_name] ∧
    (∀ e ∈ free_resources glb_cnf ctrl_fifo ctrl_sock lsock,
      e.isClose = true ∨ e.isRemove = true) ∧
    Event.close 0 ∉ free_resources glb_cnf ctrl_fifo ctrl_sock lsock ∧
    (∀ p, Event.remove p ∈ free_resources glb_cnf ctrl_fifo ctrl_sock lsock →
      ∃ pre post, free_resources glb_cnf ctrl_fifo ctrl_sock lsock
        = pre ++ Event.close ctrl_fifo :: Event.remove p :: post) := by
  unfold free_resources
  by_cases h1 : lsock = 0 <;> by_cases h2 : ctrl_sock = 0 <;> by_cases h3 : ctrl_fifo = 0 <;>
    simp [h1, h2, h3, Event.isClose, Event.isRemove]
  all_goals first
    | omega
    | exact ⟨by omega, [], [], rfl⟩
    | exact ⟨by omega, [_], [], rfl⟩
    | exact ⟨by omega, [_, _], [], rfl⟩

end Glb
